import Mathlib

/-!
Verification of the TelegramIRCImageProxy core against its specification.

The Python sources are shallowly embedded: pure helpers become Lean
functions, stateful handlers become explicit state-passing functions, and
calls to external services (Telegram API, IRC socket, imgur, filesystem)
are represented by oracle functions carried in an environment record.
Python exceptions are modelled with `Except`.
-/

namespace TgIrcProxy

/-! ## util/__init__.py -/

/-- Python truthiness of an optional string: `None` and the empty string
are falsy, every other string is truthy. -/
def otruthy : Option String → Bool
  | none => false
  | some s => !(s == "")

/-- Python exceptions raised by the modelled operations. -/
inductive PyErr where
  | keyError
  | attributeError
  | typeError
  | valueError
deriving DecidableEq

/-- The 64 characters of the standard base64 alphabet, in encoding order
(`base64.b64encode` uses this table; the padding character is `=`). -/
def b64Alphabet : List Char :=
  ("ABCDEFGHIJKLMNOPQRSTUVWXYZabcdefghijklmnopqrstuvwxyz0123456789+/").data

/-- Character for a 6-bit group (the index is reduced mod 64, which is a
no-op for genuine 6-bit values). -/
def b64char (n : Nat) : Char := b64Alphabet.getD (n % 64) 'A'

/-- Embedding of `base64.b64encode` on a byte sequence (bytes as naturals below 256):
groups of three bytes become four alphabet characters, a trailing group of
two or one byte is padded with one or two `=`. -/
def b64chunks : List Nat → List Char
  | b0 :: b1 :: b2 :: rest =>
      b64char (b0 / 4) :: b64char (b0 % 4 * 16 + b1 / 16) ::
      b64char (b1 % 16 * 4 + b2 / 64) :: b64char (b2 % 64) :: b64chunks rest
  | [b0, b1] =>
      [b64char (b0 / 4), b64char (b0 % 4 * 16 + b1 / 16), b64char (b1 % 16 * 4), '=']
  | [b0] => [b64char (b0 / 4), b64char (b0 % 4 * 16), '=', '=']
  | [] => []

/-- Number of bytes `randomstr` draws from `os.urandom`:
`math.ceil(minlen / 8 * 6)` (the program only calls this with 10, where
the float expression and the integer ceiling agree: 8). -/
def randomstrBytes (minlen : Nat) : Nat := (minlen * 6 + 7) / 8

/-- Embedding of `util.randomstr`: base64-encode the random bytes and decode as ASCII.
The random bytes from `os.urandom` are passed in explicitly. -/
def randomstr (bytes : List Nat) : String := String.mk (b64chunks bytes)

/-! ## bots/irc.py — the auth challenge registry (`IRCBot.auth_map`)

`auth_map` maps an authcode to a completion callback.  Callbacks are
identified by numeric tokens; invoking one is reported as an event.  The
mutex `_auth_map_lock` serialises all accesses, so every registry
operation is modelled as an atomic function on the map. -/

/-- Dictionary lookup `self.auth_map.get(code)` / `code in self.auth_map`. -/
def lookupAuth (m : List (String × Nat)) (code : String) : Option Nat :=
  (m.find? (fun e => e.1 == code)).map (fun e => e.2)

/-- Python dict insertion: replace the value if the key exists, else
append (insertion order). -/
def dictInsertAuth (code : String) (cb : Nat) (m : List (String × Nat)) :
    List (String × Nat) :=
  if (lookupAuth m code).isSome then
    m.map (fun e => if e.1 == code then (e.1, cb) else e)
  else m ++ [(code, cb)]

/-- Embedding of `IRCBot.new_auth_callback(callback, authcode=None)`: while the current
candidate is falsy or collides with an outstanding code, draw
`randomstr(10)` again; then store `code -> callback`.  The stream of
generated candidates is passed as `cands`; the result is `none` when no
candidate in the stream is fresh (the Python loop would keep drawing). -/
def new_auth_callback (m : List (String × Nat)) (cb : Nat)
    (preferred : Option String) (cands : List String) :
    Option (String × List (String × Nat)) :=
  let fresh := fun (c : String) => !(c == "") && (lookupAuth m c).isNone
  let code? := if fresh ((preferred).getD ("")) then some ((preferred).getD (""))
               else cands.find? fresh
  code?.map (fun code => (code, dictInsertAuth code cb m))

/-- Embedding of `IRCBot.remove_auth_callback(authcode)`: `del self.auth_map[authcode]`
removes the entry; on an absent key `del` raises `KeyError`. -/
def remove_auth_callback (m : List (String × Nat)) (code : String) :
    Except PyErr (List (String × Nat)) :=
  if (lookupAuth m code).isSome then
    .ok (m.filter (fun e => !(e.1 == code)))
  else .error .keyError

/-- Outcome of the `auth` branch of `IRCBot.on_msg_command`. -/
inductive ResolveOutcome where
  | callback (cb : Nat) (arg : String)
  | invalid (channelReply : String)
deriving DecidableEq

/-- The `auth` branch of `IRCBot.on_msg_command` (lines 42-51): under the
registry lock, look the code up; if a callback is found invoke it with
the optional alternate name or the responder nick, otherwise answer
`<nick>: Auth code invalid` on the channel.  The line parsing in lines
37-41 (stripping the bot nick and splitting the message) is outside this
model; `code` and `altName` are the parsed `args`. -/
def on_msg_command_auth (m : List (String × Nat)) (code : String)
    (nick : String) (altName : Option String) : ResolveOutcome :=
  match lookupAuth m code with
  | some cb => .callback cb (altName.getD nick)
  | none => .invalid (nick ++ ": Auth code invalid")

/-! ## models/user.py — the persistent identity store (`UserDatabase`)

`UserDatabase` keeps a Python dict `_user_cache` that is supposed to hold
`{"name_map": {int: str}, "blacklist": [int]}`, loads it lazily from a
JSON file and rewrites the whole file on every mutation.  The code is
dynamically typed, so values are modelled by a small Python-value type
and failing attribute or item accesses raise modelled exceptions. -/

/-- Python runtime values that occur in the user database code. -/
inductive PyVal where
  | pstr (s : String)
  | pint (n : Int)
  | plist (xs : List PyVal)
  | pdict (entries : List (PyVal × PyVal))

/-- Equality test used for dict keys.  Only strings and ints occur as
keys here (Python would reject unhashable list/dict keys), and a string
key never equals an int key. -/
def pyKeyEq : PyVal → PyVal → Bool
  | .pstr a, .pstr b => a == b
  | .pint a, .pint b => a == b
  | _, _ => false

/-- Lookup in a dict body. -/
def pyLookup (entries : List (PyVal × PyVal)) (k : PyVal) : Option PyVal :=
  (entries.find? (fun e => pyKeyEq e.1 k)).map (fun e => e.2)

/-- Python `d[k]` on a dict: `KeyError` when absent, `TypeError` when the
subject is not a dict (int) or not indexable by this key. -/
def pyGetItem (v : PyVal) (k : PyVal) : Except PyErr PyVal :=
  match v with
  | .pdict es =>
    match pyLookup es k with
    | some r => .ok r
    | none => .error .keyError
  | _ => .error .typeError

/-- Python `d.get(k, default)`: `AttributeError` when the subject is not
a dict. -/
def pyGetDefault (v : PyVal) (k : PyVal) (default : PyVal) : Except PyErr PyVal :=
  match v with
  | .pdict es => .ok ((pyLookup es k).getD default)
  | _ => .error .attributeError

/-- Python `d.items()`: `AttributeError` when the subject is not a dict
(in particular on a list). -/
def pyItems (v : PyVal) : Except PyErr (List (PyVal × PyVal)) :=
  match v with
  | .pdict es => .ok es
  | _ => .error .attributeError

/-- Python `d[k] = val` on a dict (replace or append in insertion order);
`TypeError` when the subject is not a dict. -/
def pySetItem (v : PyVal) (k : PyVal) (val : PyVal) : Except PyErr PyVal :=
  match v with
  | .pdict es =>
    if (pyLookup es k).isSome then
      .ok (.pdict (es.map (fun e => if pyKeyEq e.1 k then (e.1, val) else e)))
    else .ok (.pdict (es ++ [(k, val)]))
  | _ => .error .typeError

/-- Python `x.append(v)`: only lists have `append`; calling it on a dict
raises `AttributeError`. -/
def pyAppend (v : PyVal) (x : PyVal) : Except PyErr PyVal :=
  match v with
  | .plist xs => .ok (.plist (xs ++ [x]))
  | _ => .error .attributeError

/-- Python `len(x)` for containers; `TypeError` on an int. -/
def pyLen (v : PyVal) : Except PyErr Nat :=
  match v with
  | .pstr s => .ok s.length
  | .plist xs => .ok xs.length
  | .pdict es => .ok es.length
  | .pint _ => .error .typeError

/-- String of decimal digits to the number it denotes (`int(s)` for a
digit string). -/
def digitsToInt (s : String) : Int :=
  ((s.data.foldl (fun acc c => acc * 10 + c.toNat - 48) 0 : Nat) : Int)

/-- Python `int(k)`: ints pass through, strings of digits parse
(`ValueError` otherwise), containers raise `TypeError`. -/
def pyToInt (v : PyVal) : Except PyErr Int :=
  match v with
  | .pint n => .ok n
  | .pstr s =>
    if !(s == "") && s.data.all Char.isDigit then .ok (digitsToInt s)
    else .error .valueError
  | _ => .error .typeError

/-- How `json.dump` serialises a dict key: int keys become their decimal
strings (JSON object keys are strings). -/
def jsonKeyStr : PyVal → PyVal
  | .pint n => .pstr (toString n)
  | k => k

mutual

/-- What `json.load` returns for a value written by `json.dump`: int
dict keys are serialised as decimal strings, recursively.
(`sort_keys=True` only affects the order in the file text; the lookups
modelled here are order-insensitive.) -/
def jsonRoundTrip : PyVal → PyVal
  | .pstr s => .pstr s
  | .pint n => .pint n
  | .plist xs => .plist (jsonRoundTripList xs)
  | .pdict es => .pdict (jsonRoundTripEntries es)

/-- Pointwise `jsonRoundTrip` over the elements of a list. -/
def jsonRoundTripList : List PyVal → List PyVal
  | [] => []
  | x :: xs => jsonRoundTrip x :: jsonRoundTripList xs

/-- Pointwise `jsonRoundTrip` over dict entries, serialising the keys. -/
def jsonRoundTripEntries : List (PyVal × PyVal) → List (PyVal × PyVal)
  | [] => []
  | e :: es => (jsonKeyStr e.1, jsonRoundTrip e.2) :: jsonRoundTripEntries es

end

/-- The in-memory `_user_cache` dict. -/
abbrev UserCache := List (PyVal × PyVal)

/-- Embedding of `UserDatabase._write_cache`: when the cache dict is truthy
(non-empty), dump it as JSON over the whole file; otherwise leave the
file as it is.  The file is represented by the parsed-back value. -/
def write_cache (cache : UserCache) (disk : Option PyVal) : Option PyVal :=
  if cache.isEmpty then disk else some (jsonRoundTrip (.pdict cache))

/-- The fresh cache used when the file does not exist:
`dict(name_map={}, blacklist=[])`. -/
def freshUserCache : UserCache :=
  [(.pstr ("name_map"), .pdict []), (.pstr ("blacklist"), .plist [])]

/-- Embedding of `UserDatabase.user_cache` (first access): when the file is missing,
start from `freshUserCache`; otherwise take `data.get('blacklist', {})`,
convert its keys to ints (`{int(k): v for k, v in blacklist.items()}`)
and use THAT dict as the whole cache.  Afterwards the debug logging
evaluates `len(self._user_cache['name_map'])` and
`len(self._user_cache['blacklist'])` eagerly. -/
def user_cache (disk : Option PyVal) : Except PyErr UserCache := do
  let cache ← match disk with
    | none => pure freshUserCache
    | some data => do
      let blacklist ← pyGetDefault data (.pstr ("blacklist")) (.pdict [])
      let items ← pyItems blacklist
      let entries ← items.mapM (fun e => do
        let k ← pyToInt e.1
        pure ((PyVal.pint k, e.2) : PyVal × PyVal))
      pure entries
  let nm ← pyGetItem (.pdict cache) (.pstr ("name_map"))
  let _ ← pyLen nm
  let bl ← pyGetItem (.pdict cache) (.pstr ("blacklist"))
  let _ ← pyLen bl
  pure cache

/-- Embedding of `UserDatabase.add_to_name_map(id_, name)`:
`self.name_map[id_] = name` followed by `self._write_cache()`.  Returns
the new cache and the new file contents. -/
def add_to_name_map (cache : UserCache) (disk : Option PyVal)
    (id_ : Int) (name : String) : Except PyErr (UserCache × Option PyVal) := do
  let nm ← pyGetItem (.pdict cache) (.pstr ("name_map"))
  let nm2 ← pySetItem nm (.pint id_) (.pstr name)
  let cache2 := cache.map (fun e =>
    if pyKeyEq e.1 (.pstr ("name_map")) then (e.1, nm2) else e)
  pure (cache2, write_cache cache2 disk)

/-- Embedding of `UserDatabase.add_to_blacklist(id_)`: the body runs
`self.name_map.append(id_)` (appending to the name map, not the
blacklist) and then `self._write_cache()`; it returns `True`. -/
def add_to_blacklist (cache : UserCache) (disk : Option PyVal)
    (id_ : Int) : Except PyErr (UserCache × Option PyVal × Bool) := do
  let nm ← pyGetItem (.pdict cache) (.pstr ("name_map"))
  let nm2 ← pyAppend nm (.pint id_)
  let cache2 := cache.map (fun e =>
    if pyKeyEq e.1 (.pstr ("name_map")) then (e.1, nm2) else e)
  pure (cache2, write_cache cache2 disk, true)

/-- Python `x in v`: key membership for dicts, element membership for
lists. -/
def pyContains (v : PyVal) (x : PyVal) : Except PyErr Bool :=
  match v with
  | .pdict es => .ok (pyLookup es x).isSome
  | .plist xs => .ok (xs.any (fun y => pyKeyEq y x))
  | _ => .error .typeError

/-- Python `x.remove(v)`: only lists have `remove`; a dict raises
`AttributeError`. -/
def pyRemove (v : PyVal) (x : PyVal) : Except PyErr PyVal :=
  match v with
  | .plist xs =>
    if xs.any (fun y => pyKeyEq y x) then
      .ok (.plist (xs.eraseP (fun y => pyKeyEq y x)))
    else .error .valueError
  | _ => .error .attributeError

/-- Embedding of `UserDatabase.remove_from_blacklist(id_)`: checks and removes the id
on `self.name_map` (again the name map, not the blacklist); when the id
is not among the name map keys it only logs, rewrites the cache and
returns `True`. -/
def remove_from_blacklist (cache : UserCache) (disk : Option PyVal)
    (id_ : Int) : Except PyErr (UserCache × Option PyVal × Bool) := do
  let nm ← pyGetItem (.pdict cache) (.pstr ("name_map"))
  let present ← pyContains nm (.pint id_)
  if present then do
    let nm2 ← pyRemove nm (.pint id_)
    let cache2 := cache.map (fun e =>
      if pyKeyEq e.1 (.pstr ("name_map")) then (e.1, nm2) else e)
    pure (cache2, write_cache cache2 disk, true)
  else
    pure (cache, write_cache cache disk, true)

/-! ## models/image.py — `ImageInfo` records -/

/-- The `ImageInfo` namedtuple (one row of the `images` table).  Optional
columns are `Option`; `finished` is stored as 0/1 but compares equal to
the Python bool, so it is a `Bool` here. -/
structure ImageInfo where
  f_id : Option String
  time : Int
  username : Option String
  c_id : Int
  m_id : Int
  caption : Option String
  ext : String
  remote_path : Option String
  local_path : Option String
  url : Option String
  finished : Bool
deriving DecidableEq, Repr

/-- Embedding of `ImageDatabase.find_image`: the row whose primary key `f_id` matches. -/
def find_image (db : List ImageInfo) (fid : Option String) : Option ImageInfo :=
  db.find? (fun r => r.f_id == fid)

/-- Embedding of `ImageDatabase.update_image`: update only the columns
`remote_path`, `local_path`, `url`, `finished` of the row keyed by the
record's `f_id`. -/
def update_image (db : List ImageInfo) (img : ImageInfo) : List ImageInfo :=
  db.map (fun r =>
    if r.f_id == img.f_id then
      { r with remote_path := img.remote_path, local_path := img.local_path,
               url := img.url, finished := img.finished }
    else r)

/-! ## bots/telegram.py — the photo branch of `handle_updates` and the
`/blacklist` command -/

/-- One Telegram `PhotoSize` variant. -/
structure PhotoSize where
  file_id : String
  file_size : Nat
deriving DecidableEq, Repr

/-- The message fields `handle_updates` reads. -/
structure TgMessage where
  date : Int
  chat_id : Int
  message_id : Int
  caption : Option String
  photo : List PhotoSize
deriving Repr

/-- The fresh working record built at the top of `handle_updates`:
only transport addressing fields populated, everything else null/false
(`ext` defaults to `.jpg`). -/
def baseImage (msg : TgMessage) : ImageInfo :=
  { f_id := none, time := msg.date, username := none,
    c_id := msg.chat_id, m_id := msg.message_id, caption := msg.caption,
    ext := (".jpg"), remote_path := none, local_path := none, url := none,
    finished := false }

/-- Embedding of `sorted(message.photo, key=lambda p: p.file_size)`. -/
def sortedPhoto (photos : List PhotoSize) : List PhotoSize :=
  photos.insertionSort (fun a b => a.file_size ≤ b.file_size)

/-- The photo branch of `handle_updates`: sort the size variants by
`file_size` and submit the record with the `file_id` of the last (largest)
variant; `sorted_photo[-1]` raises `IndexError` on an empty list. -/
def handle_photo (msg : TgMessage) : Except PyErr ImageInfo :=
  match (sortedPhoto msg.photo).getLast? with
  | some p => .ok { baseImage msg with f_id := some p.file_id }
  | none => .error .keyError

/-- Python `str.lower()` (checked characterwise). -/
def strLower (s : String) : String := String.mk (s.data.map Char.toLower)

/-- Embedding of `cmd_blacklist(self, args, message)`: with exactly two arguments, an
action in `{add, remove}` (case folded) and a digit string, dispatch to
the corresponding `UserDatabase` method on the parsed id and answer
`Blacklist changed.` on a `True` result; otherwise answer the
usage text.  Exceptions from the dispatched method propagate. -/
def cmd_blacklist (cache : UserCache) (disk : Option PyVal)
    (args : List String) : Except PyErr (UserCache × Option PyVal × String) :=
  let a0 := strLower (args.getD 0 (""))
  let a1 := args.getD 1 ("")
  let valid := (args.length == 2) &&
    (a0 == ("add") || a0 == ("remove")) &&
    (!(a1 == "") && a1.data.all Char.isDigit)
  if valid then
    if a0 == ("add") then do
      let (cache2, disk2, r) ← add_to_blacklist cache disk (digitsToInt a1)
      pure (cache2, disk2, if r then ("Blacklist changed.") else ("Blacklist operation failed."))
    else do
      let (cache2, disk2, r) ← remove_from_blacklist cache disk (digitsToInt a1)
      pure (cache2, disk2, if r then ("Blacklist changed.") else ("Blacklist operation failed."))
  else
    pure (cache, disk,
      ("Invalid arguments; expected an action and a user ID.\n") ++
      ("Command signature: /blacklist [add | remove] <id>"))

/-! ## handlers/auth.py — the authentication handshake (`AuthHandler`)

One handshake owns: the shared auth challenge registry, its own
`authenticated` flag, the user database state, and the outgoing message
streams of both bots.  The waiting loop polls `authenticated` every
0.5 s until `auth_timeout` (default 300) elapses; real time is abstracted
to whether `do_authentication` was invoked within the window. -/

/-- The configuration fields `AuthHandler` reads. -/
structure AuthConf where
  irc_channel : String
  irc_host : String
  auth_timeout : Int
  nick : String
deriving Repr

/-- The state a handshake thread reads and writes. -/
structure HandshakeState where
  authMap : List (String × Nat)
  authenticated : Bool
  userCache : UserCache
  userDisk : Option PyVal
  tgMsgs : List (Int × String)
  ircMsgs : List (String × String)

/-- Embedding of `AuthHandler.do_authentication(name)`: a no-op when already
authenticated; otherwise persist `sender id -> name` via
`add_to_name_map`, announce success on IRC and Telegram, and set the
flag. -/
def do_authentication (conf : AuthConf) (senderId chatId : Int)
    (st : HandshakeState) (name : String) : Except PyErr HandshakeState :=
  if st.authenticated then .ok st
  else do
    let (cache2, disk2) ← add_to_name_map st.userCache st.userDisk senderId name
    .ok { st with
      userCache := cache2, userDisk := disk2,
      ircMsgs := st.ircMsgs ++
        [(conf.irc_channel, name ++ (": Authentication successful."))],
      tgMsgs := st.tgMsgs ++ [(chatId, ("Authenticated as ") ++ name ++ ("."))],
      authenticated := true }

/-- The instruction message sent to the requester (the `wrap`ped template
of lines 38-54, with single line breaks already collapsed to spaces by
`util.wrap`). -/
def authcodeMessage (conf : AuthConf) (code : String) : String :=
  ("Your Authcode is: ") ++ code ++ ("\n\n") ++
  ("Within ") ++ toString conf.auth_timeout ++
  ("s, send \"") ++ conf.nick ++ (" auth ") ++ code ++ ("\" in ") ++
  conf.irc_channel ++ (" on ") ++ conf.irc_host ++
  (" with your usual nickname. ") ++
  ("If you want the bot to use a different name than your current IRC ") ++
  ("name, add an additional argument which will be stored instead ") ++
  ("(for the slack <-> IRC proxy).") ++ ("\n\n") ++
  ("Example: \"") ++ conf.nick ++ (" auth ") ++ code ++ (" my_actual_name\"") ++
  ("\n\n") ++
  ("You can re-authenticate any time to overwrite the stored nick.")

/-- The timeout branch of the waiting loop (the `else` of the `while`):
notify the requester on Telegram. -/
def authTimeoutStep (chatId : Int) (st : HandshakeState) : HandshakeState :=
  { st with tgMsgs := st.tgMsgs ++ [(chatId, ("Authentication timed out"))] }

namespace AuthHandler

/-- Embedding of `AuthHandler.run_`: register a challenge for `do_authentication`,
send the instructions, wait until the callback fires or the window
elapses, then always unregister the code.  `cands` is the stream of
`randomstr(10)` draws (the result is `none` when none of them is fresh
and the generation loop would keep drawing); `fired` tells whether the
IRC side invoked the callback with some name within the window — when
that invocation itself raised, the flag was never set and the handshake
times out.  Returns the final state and the challenge code. -/
def run_ (conf : AuthConf) (senderId chatId : Int) (cands : List String)
    (cbId : Nat) (fired : Option String) (st0 : HandshakeState) :
    Option (Except PyErr (HandshakeState × String)) :=
  match new_auth_callback st0.authMap cbId none cands with
  | none => none
  | some (code, m1) => some (do
      let msg1 := authcodeMessage conf code
      let st1 : HandshakeState :=
        { st0 with
          authMap := m1
          tgMsgs := st0.tgMsgs ++ [(chatId, msg1)] }
      let st2 := match fired with
        | some name =>
          match do_authentication conf senderId chatId st1 name with
          | .ok st' => st'
          | .error _ => authTimeoutStep chatId st1
        | none => authTimeoutStep chatId st1
      let m2 ← remove_auth_callback st2.authMap code
      .ok ({ st2 with authMap := m2 }, code))

end AuthHandler

/-! ## handlers/image.py — the image delivery pipeline (`ImageHandler`)

One pipeline run owns its working `ImageInfo`; external calls (Telegram
file API, download, imgur upload, `os.path` functions) are oracles in an
environment record, and the filesystem, the image table and the outgoing
message streams live in a world record threaded through the run.  The
`user_db` maps are read through their well-formed in-memory view (the
handler only reads them). -/

/-- The configuration fields `ImageHandler` reads.  `Config` resolves a
missing key to a falsy empty value, so optional strings use `""` for
unset. -/
structure ImgConf where
  storage_database : Bool
  storage_directory : String
  delete_images : Bool
  irc_channel : String
  username_for_help : String
  imgur_album : String
  imgur_timestamp_format : String
deriving Repr

/-- Oracles for the external services touched by one pipeline run. -/
structure ImgEnv where
  get_file : String → Except String String
  download : String → Option String
  upload : String → String → String → Except (Int × String) String
  abspath : String → String
  tempDir : String
  strftime : String → Int → String

/-- The world state a pipeline run reads and writes.  The `…Calls` lists
record the network requests actually issued, newest last. -/
structure ImgWorld where
  fs : List String
  db : List ImageInfo
  blacklist : List Int
  name_map : List (Int × String)
  tgMsgs : List (Int × String)
  ircMsgs : List (String × String)
  chatActions : List Int
  getFileCalls : List String
  downloadCalls : List String
  uploadCalls : List String
deriving DecidableEq, Repr

/-- Embedding of `ImageHandler.reply(msg)`: a Telegram message to the originating chat
(reply threading and preview flags carry no state here). -/
def replyTo (w : ImgWorld) (img : ImageInfo) (msg : String) : ImgWorld :=
  { w with tgMsgs := w.tgMsgs ++ [(img.c_id, msg)] }

/-- Embedding of `self.user_db.name_map[c_id]` on the in-memory view. -/
def lookupName (m : List (Int × String)) (cid : Int) : Option String :=
  (m.find? (fun e => e.1 == cid)).map (fun e => e.2)

/-- Python `str(x)` on an optional string: `None` prints as `None`. -/
def pyStr : Option String → String
  | none => ("None")
  | some s => s

/-- Embedding of `string.Template(...).substitute(temp=tempDir)`: replace every
occurrence of the `$temp` placeholder (the only placeholder the template
is given). -/
def substTemp : List Char → List Char → List Char
  | '$' :: 't' :: 'e' :: 'm' :: 'p' :: rest, td => td ++ substTemp rest td
  | c :: rest, td => c :: substTemp rest td
  | [], _ => []

/-- Replace one character by another in a string (`str.replace` with
single-character arguments). -/
def replaceChar (s : String) (from_ to_ : Char) : String :=
  String.mk (s.data.map (fun c => if c = from_ then to_ else c))

/-- The storage directory for downloads:
`Template(conf.storage.directory or "$temp/telegram").substitute(temp=tempfile.gettempdir())`
made absolute. -/
def downloadDirectory (conf : ImgConf) (env : ImgEnv) : String :=
  let tmpl := if conf.storage_directory == "" then ("$temp/telegram")
              else conf.storage_directory
  env.abspath (String.mk (substTemp tmpl.data env.tempDir.data))

/-- Embedding of `os.path.join(directory, file_path.replace("/", "_"))`: the directory
is absolute and the flattened basename contains no separator, so the join
is a plain concatenation. -/
def localPathFor (conf : ImgConf) (env : ImgEnv) (filePath : String) : String :=
  downloadDirectory conf env ++ ("/") ++ replaceChar filePath '/' '_'

/-- Embedding of `ImageHandler.download_file`: fetch the file metadata (reply and
return `False` on a `botapi.Error`), derive `remote_path`/`local_path`,
create the directory and stream the download (reply and return `False`
when the result is an exception). -/
def download_file (conf : ImgConf) (env : ImgEnv) (w0 : ImgWorld)
    (img0 : ImageInfo) : ImgWorld × ImageInfo × Bool :=
  match env.get_file ((img0.f_id).getD ("")) with
  | .error e =>
      (replyTo { w0 with
          getFileCalls := w0.getFileCalls ++ [(img0.f_id).getD ("")] } img0
        (("Error getting file info: ") ++ e), img0, false)
  | .ok filePath =>
      match env.download filePath with
      | some e =>
          (replyTo { w0 with
              getFileCalls := w0.getFileCalls ++ [(img0.f_id).getD ("")],
              downloadCalls := w0.downloadCalls ++ [filePath] }
            { img0 with remote_path := some filePath,
                        local_path := some (localPathFor conf env filePath) }
            (("Error downloading file: ") ++ e),
           { img0 with remote_path := some filePath,
                       local_path := some (localPathFor conf env filePath) },
           false)
      | none =>
          ({ w0 with
              fs := localPathFor conf env filePath :: w0.fs,
              getFileCalls := w0.getFileCalls ++ [(img0.f_id).getD ("")],
              downloadCalls := w0.downloadCalls ++ [filePath] },
           { img0 with remote_path := some filePath,
                       local_path := some (localPathFor conf env filePath) },
           true)

/-- The timestamp put into the upload name and title:
`datetime.fromtimestamp(img.time).strftime(conf.imgur.timestamp_format
or "%Y-%m-%dT%H:%M:%S")`. -/
def uploadTimestamp (conf : ImgConf) (env : ImgEnv) (img : ImageInfo) :
    String :=
  env.strftime
    (if conf.imgur_timestamp_format == "" then ("%Y-%m-%dT%H:%M:%S")
     else conf.imgur_timestamp_format) img.time

/-- Embedding of `ImageHandler.upload_file`: build the timestamped name and title and
call the imgur client; on `ImgurClientError` reply with
`Error uploading to imgur: <status> <message>` and re-raise (the raised
error text propagates to the outer handler); on success store the
returned link. -/
def upload_file (conf : ImgConf) (env : ImgEnv) (w0 : ImgWorld)
    (img0 : ImageInfo) : ImgWorld × Except String ImageInfo :=
  match env.upload ((img0.local_path).getD (""))
      (replaceChar (uploadTimestamp conf env img0 ++ ("_") ++
        pyStr img0.username) ':' '-')
      (((img0.caption).getD ("No caption")) ++ (" (by ") ++
        pyStr img0.username ++ ("; ") ++ uploadTimestamp conf env img0 ++
        (")")) with
  | .error es =>
      (replyTo { w0 with
          uploadCalls := w0.uploadCalls ++ [(img0.local_path).getD ("")] }
        img0
        (("Error uploading to imgur: ") ++ toString es.1 ++ (" ") ++ es.2),
       .error (("Error uploading to imgur: ") ++ toString es.1 ++ (" ") ++
         es.2))
  | .ok link =>
      ({ w0 with
          uploadCalls := w0.uploadCalls ++ [(img0.local_path).getD ("")] },
       .ok { img0 with url := some link })

/-- Embedding of `ImageHandler.post_to_irc`: announce
`<username> url[ caption]` on the configured channel. -/
def post_to_irc (conf : ImgConf) (w : ImgWorld) (img : ImageInfo) : ImgWorld :=
  let msg := ("<") ++ pyStr img.username ++ ("> ") ++ pyStr img.url ++
    (if otruthy img.caption then (" ") ++ (img.caption).getD ("") else (""))
  { w with ircMsgs := w.ircMsgs ++ [(conf.irc_channel, msg)] }

/-- How the `try` block of `ImageHandler.run_` ended: normally, by an
early `return` (failed download), or with an exception carrying the
error text used in the apology reply. -/
inductive TryExit where
  | normal
  | earlyReturn
  | exc (e : String)
deriving DecidableEq, Repr

/-- Embedding of `os.path.exists(p)` guarded by the truthiness short-circuit of
`not self.img.local_path or not os.path.exists(self.img.local_path)`. -/
def fsHas (fs : List String) (p : Option String) : Bool :=
  match p with
  | some s => fs.contains s
  | none => false

/-- The part of the `try` block after the download stage (lines 71-87):
upload if `url` is unset (an upload error aborts with the exception);
announce to IRC; reply with the hosted link; mark finished; delete the
local file and clear `local_path` when configured (a missing or null
path at that point would raise). -/
def tryRest (conf : ImgConf) (env : ImgEnv) (w1 : ImgWorld)
    (img1 : ImageInfo) : ImgWorld × ImageInfo × TryExit :=
  let step2 :=
    if !(otruthy img1.url) then upload_file conf env w1 img1
    else (w1, .ok img1)
  match step2 with
  | (w2, .error e) => (w2, img1, .exc e)
  | (w2, .ok img2) =>
    let w3 := post_to_irc conf w2 img2
    let w4 := replyTo w3 img2
      (("Image delivered. Uploaded to: ") ++ (img2.url).getD (""))
    let img3 := { img2 with finished := true }
    if conf.delete_images then
      match img3.local_path with
      | none => (w4, img3, .exc ("TypeError"))
      | some p =>
        if w4.fs.contains p then
          ({ w4 with fs := w4.fs.erase p },
           { img3 with local_path := none }, .normal)
        else (w4, img3, .exc ("FileNotFoundError"))
    else (w4, img3, .normal)

/-- The body of the `try` block of `ImageHandler.run_` (lines 57-87):
resume from the persisted record is already done by the caller; download
if `local_path` is unset or the file is gone (a failed download ends the
run early), then the rest of the pipeline. -/
def tryBody (conf : ImgConf) (env : ImgEnv) (w0 : ImgWorld)
    (img0 : ImageInfo) : ImgWorld × ImageInfo × TryExit :=
  let step1 :=
    if !(otruthy img0.local_path) || !(fsHas w0.fs img0.local_path) then
      download_file conf env w0 img0
    else (w0, img0, true)
  match step1 with
  | (w1, img1, ok) =>
    if !ok then (w1, img1, .earlyReturn)
    else tryRest conf env w1 img1

/-- The `finally` block of `ImageHandler.run_`: with a database
configured, insert the working record when none was found at the start,
update it when it differs from the found one. -/
def persistImage (w : ImgWorld) (dbImg : Option ImageInfo)
    (img : ImageInfo) : ImgWorld :=
  match dbImg with
  | none => { w with db := w.db ++ [img] }
  | some d => if img ≠ d then { w with db := update_image w.db img } else w

/-- The apology reply sent by the `except` clause of
`ImageHandler.run_`. -/
def oopsReply (conf : ImgConf) (e : String) : String :=
  ("Oops, there was an error. Contact ") ++ conf.username_for_help ++
  (" and run in circles.\nError: ") ++ e

/-- The `except` clause of `ImageHandler.run_`: on an exception, reply
with the apology carrying the error text; otherwise do nothing. -/
def exceptClause (conf : ImgConf) (w : ImgWorld) (img : ImageInfo) :
    TryExit → ImgWorld
  | .exc e => replyTo w img (oopsReply conf e)
  | _ => w

namespace ImageHandler

/-- Embedding of `ImageHandler.run_`: silently drop for blacklisted senders; ask
unauthenticated senders to `/auth`; otherwise resolve the username, show
a chat action, resume from any persisted record for this `file_id`, run
the try body, turn an exception into the apology reply, and always
persist the working record.  Returns the final world and the final
working record. -/
def run_ (conf : ImgConf) (env : ImgEnv) (w0 : ImgWorld)
    (img0 : ImageInfo) : ImgWorld × ImageInfo :=
  if w0.blacklist.contains img0.c_id then (w0, img0)
  else
    match lookupName w0.name_map img0.c_id with
    | none =>
        (replyTo w0 img0
          ("You need to authenticate via /auth before sending pictures"),
         img0)
    | some uname =>
        let img1 := { img0 with username := some uname }
        let w1 := { w0 with chatActions := w0.chatActions ++ [img1.c_id] }
        let dbImg := if conf.storage_database then find_image w1.db img1.f_id
                     else none
        let img2 := dbImg.getD img1
        match tryBody conf env w1 img2 with
        | (w2, img3, exit_) =>
          let w3 := exceptClause conf w2 img3 exit_
          let w4 := if conf.storage_database then persistImage w3 dbImg img3
                    else w3
          (w4, img3)

end ImageHandler

/-! ## Helper lemmas on the registry map -/

/-- Unfolding of `lookupAuth` on a cons. -/
lemma lookupAuth_cons (e : String × Nat) (t : List (String × Nat))
    (code : String) :
    lookupAuth (e :: t) code =
      if e.1 = code then some e.2 else lookupAuth t code := by
  by_cases h : e.1 = code
  · simp [lookupAuth, List.find?_cons, h]
  · simp [lookupAuth, List.find?_cons, h]

/-- Removing a code by filtering leaves no entry for it. -/
lemma lookupAuth_filter_self (m : List (String × Nat)) (code : String) :
    lookupAuth (m.filter (fun e => !(e.1 == code))) code = none := by
  induction m with
  | nil => rfl
  | cons e t ih =>
    by_cases h : e.1 = code
    · rw [List.filter_cons_of_neg (by simp [h])]
      exact ih
    · rw [List.filter_cons_of_pos (by simp [h]), lookupAuth_cons, if_neg h]
      exact ih

/-- Removing a code leaves every other entry unchanged. -/
lemma lookupAuth_filter_other (m : List (String × Nat)) (code c : String)
    (hne : c ≠ code) :
    lookupAuth (m.filter (fun e => !(e.1 == code))) c = lookupAuth m c := by
  induction m with
  | nil => rfl
  | cons e t ih =>
    by_cases h : e.1 = code
    · have h2 : e.1 ≠ c := fun hc => hne (hc ▸ h ▸ rfl)
      rw [List.filter_cons_of_neg (by simp [h]), lookupAuth_cons, if_neg h2]
      exact ih
    · rw [List.filter_cons_of_pos (by simp [h]), lookupAuth_cons,
        lookupAuth_cons]
      by_cases h2 : e.1 = c
      · rw [if_pos h2, if_pos h2]
      · rw [if_neg h2, if_neg h2]
        exact ih

/-- Appending a fresh entry makes it findable. -/
lemma lookupAuth_append_self (m : List (String × Nat)) (code : String)
    (cb : Nat) (h : lookupAuth m code = none) :
    lookupAuth (m ++ [(code, cb)]) code = some cb := by
  induction m with
  | nil => simp [lookupAuth]
  | cons e t ih =>
    rw [List.cons_append, lookupAuth_cons]
    rw [lookupAuth_cons] at h
    by_cases h1 : e.1 = code
    · simp [h1] at h
    · simp only [h1, if_false] at h ⊢
      exact ih h

/-- What a successful registration returns: the code was fresh, and the
new map is the old one with the fresh entry appended. -/
lemma new_auth_callback_fresh (m : List (String × Nat)) (cb : Nat)
    (preferred : Option String) (cands : List String) (code : String)
    (m2 : List (String × Nat))
    (h : new_auth_callback m cb preferred cands = some (code, m2)) :
    lookupAuth m code = none ∧ m2 = m ++ [(code, cb)] ∧
      lookupAuth m2 code = some cb := by
  unfold new_auth_callback at h
  simp only [Option.map_eq_some'] at h
  obtain ⟨c0, hc0, heq⟩ := h
  have hfresh : (!(c0 == "") && (lookupAuth m c0).isNone) = true := by
    by_cases hp : (!(((preferred).getD ("")) == "") &&
        (lookupAuth m ((preferred).getD (""))).isNone) = true
    · rw [if_pos hp] at hc0
      cases hc0
      exact hp
    · rw [if_neg hp] at hc0
      have hf := List.find?_some hc0
      exact hf
  have hnone : lookupAuth m c0 = none := by
    have h2 := (Bool.and_eq_true _ _).mp hfresh
    exact Option.isNone_iff_eq_none.mp h2.2
  have hcode : c0 = code := congrArg Prod.fst heq
  have hm2 : dictInsertAuth c0 cb m = m2 := congrArg Prod.snd heq
  subst hcode
  have hins : dictInsertAuth c0 cb m = m ++ [(c0, cb)] := by
    simp [dictInsertAuth, hnone]
  rw [hins] at hm2
  subst hm2
  exact ⟨hnone, rfl, lookupAuth_append_self m c0 cb hnone⟩

/-! ## Claim theorems -/

/-- Claim C8, counterexample: `remove_auth_callback` on a code with no
entry is not a no-op — it raises `KeyError` instead of returning the map
unchanged. -/
theorem remove_auth_callback_absent_cex :
    remove_auth_callback [] ("abc") = .error .keyError ∧
      remove_auth_callback [] ("abc") ≠ .ok [] := by
  refine ⟨rfl, ?_⟩
  intro h
  simp [remove_auth_callback, lookupAuth] at h

/-- Claim C8, amended: `remove_auth_callback` removes the entry for the
code when one is present (leaving all other codes untouched), and raises
`KeyError` when no entry for the code exists. -/
theorem remove_auth_callback_spec (m : List (String × Nat)) (code : String) :
    ((lookupAuth m code).isSome = true →
      ∃ m2, remove_auth_callback m code = .ok m2 ∧
        lookupAuth m2 code = none ∧
        ∀ c, c ≠ code → lookupAuth m2 c = lookupAuth m c) ∧
    (lookupAuth m code = none →
      remove_auth_callback m code = .error .keyError) := by
  constructor
  · intro h
    refine ⟨m.filter (fun e => !(e.1 == code)), ?_, ?_, ?_⟩
    · simp [remove_auth_callback, h]
    · exact lookupAuth_filter_self m code
    · exact fun c hc => lookupAuth_filter_other m code c hc
  · intro h
    simp [remove_auth_callback, h]

/-- Claim C8, witness for the amended theorem at concrete inputs. -/
theorem remove_auth_callback_spec_witness :
    (∃ m2, remove_auth_callback [(("x"), 3)] ("x") = .ok m2 ∧
      lookupAuth m2 ("x") = none ∧
      ∀ c, c ≠ ("x") → lookupAuth m2 c = lookupAuth [(("x"), 3)] c) ∧
    remove_auth_callback ([] : List (String × Nat)) ("y") = .error .keyError :=
  ⟨(remove_auth_callback_spec [(("x"), 3)] ("x")).1 (by decide),
   (remove_auth_callback_spec ([] : List (String × Nat)) ("y")).2 rfl⟩

/-- A user cache holding one authenticated user and one blacklisted id,
as `UserDatabase` builds it in memory. -/
def demoUserCache : UserCache :=
  [(.pstr ("name_map"), .pdict [(.pint 42, .pstr ("alice"))]),
   (.pstr ("blacklist"), .plist [.pint 7])]

/-- The file contents `_write_cache` produces for `demoUserCache`, as
parsed back by `json.load`: the nested name map key became the string
`"42"`. -/
def demoUserDoc : PyVal :=
  .pdict [(.pstr ("name_map"), .pdict [(.pstr ("42"), .pstr ("alice"))]),
          (.pstr ("blacklist"), .plist [.pint 7])]

/-- Claim C6, code bug: writing a populated identity store and loading it
back in a fresh `UserDatabase` does not reproduce the written state — the
loader takes the `blacklist` entry (a JSON list) and calls `.items()` on
it, which raises `AttributeError`, so the load crashes instead of
returning the written `name_map` and `blacklist`. -/
theorem user_cache_roundtrip_crashes :
    write_cache demoUserCache none =
      some (jsonRoundTrip (.pdict demoUserCache)) ∧
    user_cache (write_cache demoUserCache none) = .error .attributeError ∧
    ∀ c : UserCache, user_cache (write_cache demoUserCache none) ≠ .ok c := by
  have hdisk : write_cache demoUserCache none = some demoUserDoc := by
    simp [write_cache, demoUserCache, demoUserDoc, jsonRoundTrip,
      jsonRoundTripEntries, jsonRoundTripList, jsonKeyStr,
      show toString (42 : Int) = ("42") from rfl]
  have hload : user_cache (some demoUserDoc) = .error .attributeError := rfl
  refine ⟨rfl, ?_, ?_⟩
  · rw [hdisk]
    exact hload
  · intro c h
    rw [hdisk, hload] at h
    exact Except.noConfusion h

/-- Claim C7, code bug: `add_to_blacklist` runs
`self.name_map.append(id_)` — appending to the name map dict instead of
the blacklist list — so it raises `AttributeError` and the id never
reaches the blacklist; the `/blacklist add` command crashes the same
way.  Shown on the fresh store and on a store with one authenticated
user. -/
theorem add_to_blacklist_crashes :
    add_to_blacklist freshUserCache none 7 = .error .attributeError ∧
    add_to_blacklist demoUserCache none 7 = .error .attributeError ∧
    cmd_blacklist freshUserCache none [("add"), ("7")] =
      .error .attributeError :=
  ⟨rfl, rfl, rfl⟩

/-- Every character produced for a 6-bit group lies in the base64
alphabet. -/
lemma b64char_mem (n : Nat) : b64char n ∈ b64Alphabet := by
  have hlen : b64Alphabet.length = 64 := rfl
  have hlt : n % 64 < b64Alphabet.length := by
    rw [hlen]
    exact Nat.mod_lt _ (by norm_num)
  unfold b64char
  rw [List.getD_eq_getElem?_getD, List.getElem?_eq_getElem hlt,
    Option.getD_some]
  exact List.getElem_mem hlt

/-- Shape of `randomstr` on the 8 bytes drawn for `minlen = 10`: twelve
characters, the first eleven from the base64 alphabet and a final
padding `=`. -/
lemma randomstr_shape (bs : List Nat) (h : bs.length = randomstrBytes 10) :
    (randomstr bs).length = 12 ∧
    ∃ l, (randomstr bs).data = l ++ ['='] ∧ l.length = 11 ∧
      ∀ c ∈ l, c ∈ b64Alphabet := by
  match bs, h with
  | [b0, b1, b2, b3, b4, b5, b6, b7], _ =>
    refine ⟨rfl, [b64char (b0 / 4), b64char (b0 % 4 * 16 + b1 / 16),
      b64char (b1 % 16 * 4 + b2 / 64), b64char (b2 % 64),
      b64char (b3 / 4), b64char (b3 % 4 * 16 + b4 / 16),
      b64char (b4 % 16 * 4 + b5 / 64), b64char (b5 % 64),
      b64char (b6 / 4), b64char (b6 % 4 * 16 + b7 / 16),
      b64char (b7 % 16 * 4)], rfl, rfl, ?_⟩
    intro c hc
    simp only [List.mem_cons, List.not_mem_nil, or_false] at hc
    rcases hc with rfl | rfl | rfl | rfl | rfl | rfl | rfl | rfl | rfl |
      rfl | rfl
    all_goals exact b64char_mem _

/-- Claim C3: a code handed out by `new_auth_callback` (as the program
calls it: no preferred code, candidates drawn by `randomstr(10)`) is
absent from the outstanding map at the moment of issuance and recorded
in the returned map; the generated code has 12 characters — at least 10
drawn from the base64 alphabet (eleven alphabet characters and a final
padding `=`); and the `auth` command on a code that is not currently
registered invokes no callback and tells the responder the code is
invalid. -/
theorem new_auth_callback_spec (m : List (String × Nat)) (cb : Nat)
    (cands0 : List (List Nat)) (code : String) (m2 : List (String × Nat))
    (hlen : ∀ bs ∈ cands0, bs.length = randomstrBytes 10)
    (h : new_auth_callback m cb none (cands0.map randomstr) = some (code, m2)) :
    lookupAuth m code = none ∧
    lookupAuth m2 code = some cb ∧
    code.length = 12 ∧
    (∃ l, code.data = l ++ ['='] ∧ l.length = 11 ∧
      ∀ c ∈ l, c ∈ b64Alphabet) ∧
    (∀ (m3 : List (String × Nat)) (c nick : String) (altName : Option String),
      lookupAuth m3 c = none →
      on_msg_command_auth m3 c nick altName =
        .invalid (nick ++ (": Auth code invalid"))) := by
  obtain ⟨hnone, hm2, hfound⟩ :=
    new_auth_callback_fresh m cb none (cands0.map randomstr) code m2 h
  have hmem : code ∈ cands0.map randomstr := by
    unfold new_auth_callback at h
    simp only [Option.map_eq_some'] at h
    obtain ⟨c0, hc0, heq⟩ := h
    have hcond : (!(("" : String) == "") && (lookupAuth m ("")).isNone) = false := by
      simp
    simp only [Option.getD_none, hcond, Bool.false_eq_true, if_false] at hc0
    have hcm := List.mem_of_find?_eq_some hc0
    have hcode : c0 = code := congrArg Prod.fst heq
    exact hcode ▸ hcm
  obtain ⟨bs, hbs, hcode⟩ := List.mem_map.mp hmem
  have hshape := randomstr_shape bs (hlen bs hbs)
  rw [hcode] at hshape
  refine ⟨hnone, hfound, hshape.1, hshape.2, ?_⟩
  intro m3 c nick altName hn
  simp [on_msg_command_auth, hn]

/-- Claim C3, witness: from an empty registry with one all-zero draw the
code `AAAAAAAAAAA=` is issued, stored, and 12 characters long. -/
theorem new_auth_callback_spec_witness :
    lookupAuth [] ("AAAAAAAAAAA=") = none ∧
    lookupAuth [(("AAAAAAAAAAA="), 9)] ("AAAAAAAAAAA=") = some 9 ∧
    ("AAAAAAAAAAA=" : String).length = 12 ∧
    (∃ l, ("AAAAAAAAAAA=" : String).data = l ++ ['='] ∧ l.length = 11 ∧
      ∀ c ∈ l, c ∈ b64Alphabet) ∧
    (∀ (m3 : List (String × Nat)) (c nick : String) (altName : Option String),
      lookupAuth m3 c = none →
      on_msg_command_auth m3 c nick altName =
        .invalid (nick ++ (": Auth code invalid"))) :=
  new_auth_callback_spec [] 9 [[0, 0, 0, 0, 0, 0, 0, 0]] ("AAAAAAAAAAA=")
    [(("AAAAAAAAAAA="), 9)]
    (by intro bs hbs
        simp only [List.mem_singleton] at hbs
        rw [hbs]
        rfl)
    rfl

/-! ## Helper lemmas on Python dict lookups -/

/-- Monadic bind on a successful `Except` computation reduces. -/
lemma except_bind_ok {ε α β : Type} (a : α) (f : α → Except ε β) :
    (Bind.bind (Except.ok a) f : Except ε β) = f a := rfl

/-- Reduction of `pure` on `Except` to `ok`. -/
lemma except_pure_eq_ok {ε α : Type} (a : α) :
    (pure a : Except ε α) = Except.ok a := rfl

/-- Unfolding equation of `pyGetItem` on a dict. -/
lemma pyGetItem_dict (es : List (PyVal × PyVal)) (k : PyVal) :
    pyGetItem (.pdict es) k =
      (match pyLookup es k with
       | some r => .ok r
       | none => .error .keyError) := rfl

/-- Unfolding equation of `pySetItem` on a dict. -/
lemma pySetItem_dict (es : List (PyVal × PyVal)) (k v : PyVal) :
    pySetItem (.pdict es) k v =
      (if (pyLookup es k).isSome then
        .ok (.pdict (es.map (fun e => if pyKeyEq e.1 k then (e.1, v) else e)))
      else .ok (.pdict (es ++ [(k, v)]))) := rfl

/-- Unfolding of `pyLookup` on a cons. -/
lemma pyLookup_cons (e : PyVal × PyVal) (t : List (PyVal × PyVal))
    (k : PyVal) :
    pyLookup (e :: t) k =
      if pyKeyEq e.1 k = true then some e.2 else pyLookup t k := by
  by_cases h : pyKeyEq e.1 k = true
  · rw [if_pos h]
    unfold pyLookup
    rw [List.find?_cons_of_pos t
      (show (fun x : PyVal × PyVal => pyKeyEq x.1 k) e = true from h)]
    rfl
  · rw [if_neg h]
    unfold pyLookup
    rw [List.find?_cons_of_neg t
      (show ¬(fun x : PyVal × PyVal => pyKeyEq x.1 k) e = true from h)]

/-- Replacing the value stored under a present key makes the new value
the one found. -/
lemma pyLookup_mapReplace (es : List (PyVal × PyVal)) (k v : PyVal)
    (h : (pyLookup es k).isSome = true) :
    pyLookup (es.map (fun e => if pyKeyEq e.1 k then (e.1, v) else e)) k =
      some v := by
  induction es with
  | nil => simp [pyLookup] at h
  | cons e t ih =>
    by_cases hk : pyKeyEq e.1 k = true
    · rw [List.map_cons, if_pos hk, pyLookup_cons]
      simp [hk]
    · rw [List.map_cons, if_neg hk, pyLookup_cons, if_neg hk]
      rw [pyLookup_cons, if_neg hk] at h
      exact ih h

/-- Appending an entry under an absent key makes it the one found (for a
key that equals itself, which holds for string and int keys). -/
lemma pyLookup_append_fresh (es : List (PyVal × PyVal)) (k v : PyVal)
    (hk : pyKeyEq k k = true) (h : pyLookup es k = none) :
    pyLookup (es ++ [(k, v)]) k = some v := by
  induction es with
  | nil =>
    rw [List.nil_append, pyLookup_cons, if_pos hk]
  | cons e t ih =>
    rw [List.cons_append, pyLookup_cons]
    rw [pyLookup_cons] at h
    by_cases h1 : pyKeyEq e.1 k = true
    · rw [if_pos h1] at h
      exact Option.noConfusion h
    · rw [if_neg h1] at h
      rw [if_neg h1]
      exact ih h

/-- On a dict, `pySetItem` succeeds and the new value is found under the
key afterwards. -/
lemma pySetItem_found (es : List (PyVal × PyVal)) (k v : PyVal)
    (hk : pyKeyEq k k = true) :
    ∃ es2, pySetItem (.pdict es) k v = .ok (.pdict es2) ∧
      pyLookup es2 k = some v := by
  rw [pySetItem_dict]
  by_cases h : (pyLookup es k).isSome = true
  · exact ⟨_, by rw [if_pos h], pyLookup_mapReplace es k v h⟩
  · have hn : pyLookup es k = none := by
      cases hv : pyLookup es k
      · rfl
      · rw [hv] at h
        simp at h
    refine ⟨_, by rw [if_neg h], pyLookup_append_fresh es k v hk hn⟩

/-- Claim C9: `do_authentication` is idempotent — with the flag already
set it returns the state unchanged (no store write, no messages); on
its first invocation (flag unset, name map present) it persists
`sender id -> name` in the identity store, writes the store to disk,
announces success on IRC and on Telegram, sets the flag, and any further
invocation afterwards is a no-op. -/
theorem do_authentication_spec (conf : AuthConf) (senderId chatId : Int)
    (st : HandshakeState) (name : String) (nm : List (PyVal × PyVal))
    (hnm : pyGetItem (.pdict st.userCache) (.pstr ("name_map")) =
      .ok (.pdict nm)) :
    (st.authenticated = true →
      do_authentication conf senderId chatId st name = .ok st) ∧
    (st.authenticated = false →
      ∃ st2, do_authentication conf senderId chatId st name = .ok st2 ∧
        st2.authenticated = true ∧
        (∃ nm2, pyGetItem (.pdict st2.userCache) (.pstr ("name_map")) =
            .ok (.pdict nm2) ∧
          pyLookup nm2 (.pint senderId) = some (.pstr name)) ∧
        st2.userDisk = write_cache st2.userCache st.userDisk ∧
        st2.tgMsgs = st.tgMsgs ++
          [(chatId, ("Authenticated as ") ++ name ++ ("."))] ∧
        st2.ircMsgs = st.ircMsgs ++
          [(conf.irc_channel, name ++ (": Authentication successful."))] ∧
        st2.authMap = st.authMap ∧
        ∀ name2, do_authentication conf senderId chatId st2 name2 = .ok st2) := by
  have hl : pyLookup st.userCache (.pstr ("name_map")) = some (.pdict nm) := by
    rw [pyGetItem_dict] at hnm
    cases hv : pyLookup st.userCache (.pstr ("name_map")) with
    | none =>
      rw [hv] at hnm
      exact Except.noConfusion hnm
    | some r =>
      rw [hv] at hnm
      simp only [Except.ok.injEq] at hnm
      rw [hnm]
  constructor
  · intro hauth
    simp [do_authentication, hauth]
  · intro hauth
    obtain ⟨nm2, hset, hfound⟩ :=
      pySetItem_found nm (.pint senderId) (.pstr name) (by simp [pyKeyEq])
    have hrun : do_authentication conf senderId chatId st name =
        .ok { st with
          userCache := st.userCache.map (fun e =>
            if pyKeyEq e.1 (.pstr ("name_map")) then (e.1, .pdict nm2) else e),
          userDisk := write_cache (st.userCache.map (fun e =>
            if pyKeyEq e.1 (.pstr ("name_map")) then (e.1, .pdict nm2) else e))
            st.userDisk,
          ircMsgs := st.ircMsgs ++
            [(conf.irc_channel, name ++ (": Authentication successful."))],
          tgMsgs := st.tgMsgs ++
            [(chatId, ("Authenticated as ") ++ name ++ ("."))],
          authenticated := true } := by
      unfold do_authentication add_to_name_map
      simp only [hauth, Bool.false_eq_true, if_false, hnm, except_bind_ok,
        hset, except_pure_eq_ok]
    refine ⟨_, hrun, rfl, ⟨nm2, ?_, hfound⟩, rfl, rfl, rfl, rfl, ?_⟩
    · have hc2 : pyLookup (st.userCache.map (fun e =>
          if pyKeyEq e.1 (.pstr ("name_map")) then (e.1, .pdict nm2) else e))
          (.pstr ("name_map")) = some (.pdict nm2) :=
        pyLookup_mapReplace st.userCache (.pstr ("name_map")) (.pdict nm2)
          (by rw [hl]; rfl)
      simp [pyGetItem, hc2]
    · intro name2
      simp [do_authentication]

/-- A handshake state before any authentication: empty registry, fresh
user store, no messages sent. -/
def demoHandshake : HandshakeState :=
  { authMap := [], authenticated := false, userCache := freshUserCache,
    userDisk := none, tgMsgs := [], ircMsgs := [] }

/-- The IRC configuration used by the concrete handshake scenarios. -/
def demoAuthConf : AuthConf :=
  { irc_channel := ("#chan"), irc_host := ("irc.example"),
    auth_timeout := 300, nick := ("ircbot") }

/-- Claim C9, witness: the no-op on an already-authenticated handshake
and the first authentication on a fresh store, at concrete inputs. -/
theorem do_authentication_spec_witness :
    (do_authentication demoAuthConf 99 99
        { demoHandshake with authenticated := true } ("bob") =
      .ok { demoHandshake with authenticated := true }) ∧
    (∃ st2, do_authentication demoAuthConf 99 99 demoHandshake ("bob") =
        .ok st2 ∧
      st2.authenticated = true ∧
      (∃ nm2, pyGetItem (.pdict st2.userCache) (.pstr ("name_map")) =
          .ok (.pdict nm2) ∧
        pyLookup nm2 (.pint 99) = some (.pstr ("bob"))) ∧
      st2.userDisk = write_cache st2.userCache demoHandshake.userDisk ∧
      st2.tgMsgs = demoHandshake.tgMsgs ++
        [(99, ("Authenticated as ") ++ ("bob") ++ ("."))] ∧
      st2.ircMsgs = demoHandshake.ircMsgs ++
        [(demoAuthConf.irc_channel, ("bob") ++ (": Authentication successful."))] ∧
      st2.authMap = demoHandshake.authMap ∧
      ∀ name2, do_authentication demoAuthConf 99 99 st2 name2 = .ok st2) :=
  ⟨(do_authentication_spec demoAuthConf 99 99
      { demoHandshake with authenticated := true } ("bob") [] rfl).1 rfl,
   (do_authentication_spec demoAuthConf 99 99 demoHandshake ("bob") []
      rfl).2 rfl⟩

/-- Claim C4: when the completion callback never fires within the
timeout window, the requester is sent `Authentication timed out`, the
identity store (cache and disk) is untouched, no IRC message is sent,
and the challenge code is unregistered, so resolving it afterwards
invokes no callback and reports the code as invalid. -/
theorem auth_timeout_spec (conf : AuthConf) (senderId chatId : Int)
    (cands : List String) (cbId : Nat) (st0 : HandshakeState)
    (code : String) (m1 : List (String × Nat))
    (hreg : new_auth_callback st0.authMap cbId none cands = some (code, m1)) :
    ∃ stF, AuthHandler.run_ conf senderId chatId cands cbId none st0 =
        some (.ok (stF, code)) ∧
      stF.tgMsgs = st0.tgMsgs ++ [(chatId, authcodeMessage conf code),
        (chatId, ("Authentication timed out"))] ∧
      stF.userCache = st0.userCache ∧
      stF.userDisk = st0.userDisk ∧
      stF.ircMsgs = st0.ircMsgs ∧
      stF.authenticated = st0.authenticated ∧
      lookupAuth stF.authMap code = none ∧
      (∀ nick altName, on_msg_command_auth stF.authMap code nick altName =
        .invalid (nick ++ (": Auth code invalid"))) := by
  obtain ⟨hfresh, hm1, hfound⟩ :=
    new_auth_callback_fresh st0.authMap cbId none cands code m1 hreg
  have hrm : remove_auth_callback m1 code =
      .ok (m1.filter (fun e => !(e.1 == code))) := by
    unfold remove_auth_callback
    rw [if_pos (by rw [hfound]; rfl)]
  have hrun : AuthHandler.run_ conf senderId chatId cands cbId none st0 =
      some (.ok
        ({ authMap := m1.filter (fun e => !(e.1 == code)),
           authenticated := st0.authenticated,
           userCache := st0.userCache,
           userDisk := st0.userDisk,
           tgMsgs := st0.tgMsgs ++ [(chatId, authcodeMessage conf code),
             (chatId, ("Authentication timed out"))],
           ircMsgs := st0.ircMsgs }, code)) := by
    unfold AuthHandler.run_
    rw [hreg]
    simp only [authTimeoutStep, hrm, except_bind_ok, List.append_assoc,
      List.cons_append, List.nil_append]
  refine ⟨_, hrun, rfl, rfl, rfl, rfl, rfl,
    lookupAuth_filter_self m1 code, ?_⟩
  intro nick altName
  simp [on_msg_command_auth, lookupAuth_filter_self m1 code]

/-- Claim C4, witness: a concrete handshake from the fresh state with a
single candidate code that is never answered. -/
theorem auth_timeout_spec_witness :
    ∃ stF, AuthHandler.run_ demoAuthConf 99 99 [("c1")] 5 none
        demoHandshake = some (.ok (stF, ("c1"))) ∧
      stF.tgMsgs = demoHandshake.tgMsgs ++
        [(99, authcodeMessage demoAuthConf ("c1")),
         (99, ("Authentication timed out"))] ∧
      stF.userCache = demoHandshake.userCache ∧
      stF.userDisk = demoHandshake.userDisk ∧
      stF.ircMsgs = demoHandshake.ircMsgs ∧
      stF.authenticated = demoHandshake.authenticated ∧
      lookupAuth stF.authMap ("c1") = none ∧
      (∀ nick altName, on_msg_command_auth stF.authMap ("c1") nick altName =
        .invalid (nick ++ (": Auth code invalid"))) :=
  auth_timeout_spec demoAuthConf 99 99 [("c1")] 5 demoHandshake ("c1")
    [(("c1"), 5)] rfl

/-! ## Helper lemmas for the photo sort -/

instance : DecidableRel (fun a b : PhotoSize => a.file_size ≤ b.file_size) :=
  fun a b => Nat.decLe a.file_size b.file_size

instance : IsTotal PhotoSize (fun a b => a.file_size ≤ b.file_size) :=
  ⟨fun a b => Nat.le_total a.file_size b.file_size⟩

instance : IsTrans PhotoSize (fun a b => a.file_size ≤ b.file_size) :=
  ⟨fun _ _ _ hab hbc => Nat.le_trans hab hbc⟩

/-- In a list that is pairwise nondecreasing under a measure, the last
element realises the maximum. -/
lemma pairwise_le_getLast {α : Type} (f : α → Nat) :
    ∀ (l : List α) (hl : l ≠ []),
      l.Pairwise (fun a b => f a ≤ f b) →
      ∀ x ∈ l, f x ≤ f (l.getLast hl)
  | [], hl, _, _, hx => absurd rfl hl
  | [a], _, _, x, hx => by
      simp only [List.mem_singleton] at hx
      rw [hx]
      exact Nat.le_refl _
  | a :: b :: t, _, hp, x, hx => by
      have hcons : (a :: b :: t).getLast (by simp) = (b :: t).getLast (by simp) :=
        List.getLast_cons (by simp)
      rw [hcons]
      rcases List.mem_cons.mp hx with rfl | hx2
      · have hrel : ∀ y ∈ b :: t, f x ≤ f y := by
          intro y hy
          exact (List.pairwise_cons.mp hp).1 y hy
        exact hrel _ (List.getLast_mem (by simp))
      · exact pairwise_le_getLast f (b :: t) (by simp)
          (List.pairwise_cons.mp hp).2 x hx2

/-- Claim C10: for a photo message with a non-empty list of size
variants, the record submitted to the pipeline carries the `file_id` of
a variant with the greatest `file_size` (the last element of the list
sorted by size). -/
theorem handle_photo_spec (msg : TgMessage) (h : msg.photo ≠ []) :
    ∃ p, handle_photo msg = .ok { baseImage msg with f_id := some p.file_id } ∧
      p ∈ msg.photo ∧ ∀ q ∈ msg.photo, q.file_size ≤ p.file_size := by
  have hperm := List.perm_insertionSort
    (fun a b : PhotoSize => a.file_size ≤ b.file_size) msg.photo
  have hsorted := List.sorted_insertionSort
    (fun a b : PhotoSize => a.file_size ≤ b.file_size) msg.photo
  have hne : sortedPhoto msg.photo ≠ [] := by
    intro hnil
    unfold sortedPhoto at hnil
    have h2 : msg.photo.Perm [] := by
      rw [← hnil]
      exact hperm.symm
    exact h (List.Perm.eq_nil h2)
  have hlast : (sortedPhoto msg.photo).getLast? =
      some ((sortedPhoto msg.photo).getLast hne) :=
    List.getLast?_eq_getLast _ hne
  refine ⟨(sortedPhoto msg.photo).getLast hne, ?_, ?_, ?_⟩
  · unfold handle_photo
    rw [hlast]
  · have hmem := List.getLast_mem hne
    unfold sortedPhoto at hmem
    exact hperm.mem_iff.mp hmem
  · intro q hq
    have hq2 : q ∈ sortedPhoto msg.photo := by
      unfold sortedPhoto
      exact hperm.mem_iff.mpr hq
    exact pairwise_le_getLast PhotoSize.file_size
      (sortedPhoto msg.photo) hne hsorted q hq2

/-- A concrete photo message with three size variants, the middle one
largest. -/
def demoPhotoMsg : TgMessage :=
  { date := 5, chat_id := 1, message_id := 2, caption := none,
    photo := [⟨("s"), 10⟩, ⟨("m"), 50⟩, ⟨("l"), 30⟩] }

/-- Claim C10, witness: a concrete photo message with three size
variants. -/
theorem handle_photo_spec_witness :
    demoPhotoMsg.photo ≠ [] ∧
    ∃ p, handle_photo demoPhotoMsg =
        .ok { baseImage demoPhotoMsg with f_id := some p.file_id } ∧
      p ∈ demoPhotoMsg.photo ∧
      ∀ q ∈ demoPhotoMsg.photo, q.file_size ≤ p.file_size :=
  ⟨by decide, handle_photo_spec demoPhotoMsg (by decide)⟩

/-! ## Concrete pipeline scenarios

A configuration with database persistence and local-file deletion on, a
transport where every call succeeds, and variants where the download or
the upload fails. -/

/-- Pipeline configuration: database on, `delete_images` on. -/
def demoConf : ImgConf :=
  { storage_database := true, storage_directory := ("/data"),
    delete_images := true, irc_channel := ("#chan"),
    username_for_help := ("@helper"), imgur_album := ("alb"),
    imgur_timestamp_format := ("") }

/-- Environment where every external call succeeds. -/
def demoEnv : ImgEnv :=
  { get_file := fun _ => .ok ("photos/file_1.jpg"),
    download := fun _ => none,
    upload := fun _ _ _ => .ok ("http://i.example/x.jpg"),
    abspath := fun s => s,
    tempDir := ("/tmp"),
    strftime := fun _ _ => ("ts") }

/-- Same transport, but the file download fails. -/
def demoEnvDlFail : ImgEnv :=
  { demoEnv with download := fun _ => some ("connection reset") }

/-- Same transport, but the imgur upload raises a client error. -/
def demoEnvUpFail : ImgEnv :=
  { demoEnv with upload := fun _ _ _ => .error (400, ("over capacity")) }

/-- Initial world: empty filesystem and image table, one authenticated
user `alice` with chat id 42. -/
def demoWorld : ImgWorld :=
  { fs := [], db := [], blacklist := [], name_map := [(42, ("alice"))],
    tgMsgs := [], ircMsgs := [], chatActions := [],
    getFileCalls := [], downloadCalls := [], uploadCalls := [] }

/-- A freshly observed photo event from chat id 42. -/
def demoImg : ImageInfo :=
  { f_id := some ("f1"), time := 100, username := none, c_id := 42,
    m_id := 7, caption := none, ext := (".jpg"), remote_path := none,
    local_path := none, url := none, finished := false }

/-- Claim C1, counterexample: with `delete_images` configured, the first
run completes the record (`finished = true` persisted), yet resubmitting
the same `file_id` downloads the file again (a second download request
is issued), because the completing run cleared `local_path`.  The upload
is not repeated and the terminal record is reproduced exactly. -/
theorem completed_record_redownloaded_cex :
    (ImageHandler.run_ demoConf demoEnv demoWorld demoImg).2.finished
      = true ∧
    (ImageHandler.run_ demoConf demoEnv demoWorld
      demoImg).1.downloadCalls.length = 1 ∧
    (ImageHandler.run_ demoConf demoEnv
      (ImageHandler.run_ demoConf demoEnv demoWorld demoImg).1
      demoImg).1.downloadCalls.length = 2 ∧
    (ImageHandler.run_ demoConf demoEnv
      (ImageHandler.run_ demoConf demoEnv demoWorld demoImg).1
      demoImg).1.uploadCalls.length = 1 ∧
    (ImageHandler.run_ demoConf demoEnv
      (ImageHandler.run_ demoConf demoEnv demoWorld demoImg).1
      demoImg).2 =
      (ImageHandler.run_ demoConf demoEnv demoWorld demoImg).2 := by
  refine ⟨rfl, rfl, rfl, rfl, rfl⟩

/-- Claim C2, counterexample: after a completing run under
`delete_images` (which leaves `local_path = none` in the table),
resubmitting the same `file_id` with a failing download produces a
terminal record with `finished = true` but `local_path` re-set to the
stale download path — so `finished = true` does not imply
`local_path = none` even though `delete_images` is configured. -/
theorem finished_record_stale_local_path_cex :
    demoConf.delete_images = true ∧
    (ImageHandler.run_ demoConf demoEnvDlFail
      (ImageHandler.run_ demoConf demoEnv demoWorld demoImg).1
      demoImg).2.finished = true ∧
    (ImageHandler.run_ demoConf demoEnvDlFail
      (ImageHandler.run_ demoConf demoEnv demoWorld demoImg).1
      demoImg).2.local_path = some ("/data/photos_file_1.jpg") := by
  refine ⟨rfl, rfl, rfl⟩

/-! ## Helper lemmas on the pipeline run -/

/-- Truthiness of a missing optional string. -/
lemma otruthy_none : otruthy none = false := rfl

/-- Truthiness of a present string. -/
lemma otruthy_some (s : String) : otruthy (some s) = !(s == "") := rfl

/-- Marking an already finished record finished changes nothing. -/
lemma ImageInfo_set_finished (r : ImageInfo) (h : r.finished = true) :
    { r with finished := true } = r := by
  cases r
  simp_all

/-- Persisting a record equal to the one found is a no-op. -/
lemma persistImage_same (w : ImgWorld) (r : ImageInfo) :
    persistImage w (some r) r = w := by
  simp [persistImage]

/-- An authorized run that finds a persisted record works on that
record: the run is the try body on it, followed by the except clause and
persistence. -/
lemma run_unfold_found (conf : ImgConf) (env : ImgEnv) (w : ImgWorld)
    (img0 r : ImageInfo) (uname : String)
    (hbl : w.blacklist.contains img0.c_id = false)
    (hnm : lookupName w.name_map img0.c_id = some uname)
    (hdb : conf.storage_database = true)
    (hfind : find_image w.db img0.f_id = some r) :
    ImageHandler.run_ conf env w img0 =
      (persistImage
        (exceptClause conf
          (tryBody conf env
            { w with chatActions := w.chatActions ++ [img0.c_id] } r).1
          (tryBody conf env
            { w with chatActions := w.chatActions ++ [img0.c_id] } r).2.1
          (tryBody conf env
            { w with chatActions := w.chatActions ++ [img0.c_id] } r).2.2)
        (some r)
        (tryBody conf env
          { w with chatActions := w.chatActions ++ [img0.c_id] } r).2.1,
       (tryBody conf env
         { w with chatActions := w.chatActions ++ [img0.c_id] } r).2.1) := by
  unfold ImageHandler.run_
  simp only [hbl, Bool.false_eq_true, if_false, hnm, hdb, if_true, hfind,
    Option.getD_some]

/-- An authorized run with no persisted record works on the fresh record
with the username resolved. -/
lemma run_unfold_notfound (conf : ImgConf) (env : ImgEnv) (w : ImgWorld)
    (img0 : ImageInfo) (uname : String)
    (hbl : w.blacklist.contains img0.c_id = false)
    (hnm : lookupName w.name_map img0.c_id = some uname)
    (hdb : conf.storage_database = true)
    (hfind : find_image w.db img0.f_id = none) :
    ImageHandler.run_ conf env w img0 =
      (persistImage
        (exceptClause conf
          (tryBody conf env
            { w with chatActions := w.chatActions ++ [img0.c_id] }
            { img0 with username := some uname }).1
          (tryBody conf env
            { w with chatActions := w.chatActions ++ [img0.c_id] }
            { img0 with username := some uname }).2.1
          (tryBody conf env
            { w with chatActions := w.chatActions ++ [img0.c_id] }
            { img0 with username := some uname }).2.2)
        none
        (tryBody conf env
          { w with chatActions := w.chatActions ++ [img0.c_id] }
          { img0 with username := some uname }).2.1,
       (tryBody conf env
         { w with chatActions := w.chatActions ++ [img0.c_id] }
         { img0 with username := some uname }).2.1) := by
  unfold ImageHandler.run_
  simp only [hbl, Bool.false_eq_true, if_false, hnm, hdb, if_true, hfind,
    Option.getD_none]

/-- Try body on a record whose file is on disk and whose url is set and
with `delete_images` off: both stages are skipped, the announcement and
the delivery reply are repeated, the record is (re)marked finished. -/
lemma tryBody_skip_all (conf : ImgConf) (env : ImgEnv) (w : ImgWorld)
    (img : ImageInfo)
    (hlp : otruthy img.local_path = true)
    (hfs : fsHas w.fs img.local_path = true)
    (hurl : otruthy img.url = true)
    (hdel : conf.delete_images = false) :
    tryBody conf env w img =
      (replyTo (post_to_irc conf w img) img
        (("Image delivered. Uploaded to: ") ++ (img.url).getD ("")),
       { img with finished := true }, .normal) := by
  unfold tryBody tryRest
  simp only [hlp, hfs, hurl, Bool.not_true, Bool.or_self, Bool.false_eq_true,
    if_false, hdel]

/-- Try body on a record with a cleared `local_path` but a set url, with
`delete_images` on and a working transport: the file is downloaded
again, the upload is skipped, and the cleanup removes the file and
clears `local_path` again. -/
lemma tryBody_redownload (conf : ImgConf) (env : ImgEnv) (w : ImgWorld)
    (img : ImageInfo) (fp : String)
    (hlp : img.local_path = none)
    (hgf : env.get_file ((img.f_id).getD ("")) = .ok fp)
    (hdl : env.download fp = none)
    (hurl : otruthy img.url = true)
    (hdel : conf.delete_images = true) :
    tryBody conf env w img =
      ({ w with
          getFileCalls := w.getFileCalls ++ [(img.f_id).getD ("")],
          downloadCalls := w.downloadCalls ++ [fp],
          ircMsgs := w.ircMsgs ++ [(conf.irc_channel,
            ("<") ++ pyStr img.username ++ ("> ") ++ pyStr img.url ++
            (if otruthy img.caption then (" ") ++ (img.caption).getD ("")
             else ("")))],
          tgMsgs := w.tgMsgs ++ [(img.c_id,
            ("Image delivered. Uploaded to: ") ++ (img.url).getD (""))] },
       { img with remote_path := some fp, local_path := none,
                  finished := true },
       .normal) := by
  unfold tryBody tryRest download_file
  simp only [hlp, otruthy_none, Bool.not_false, Bool.true_or, if_true, hgf,
    hdl, hurl, Bool.not_true, Bool.false_eq_true, if_false, hdel,
    post_to_irc, replyTo]
  simp [List.erase_cons_head]

/-- The except clause is the identity on a normal exit. -/
lemma exceptClause_normal (conf : ImgConf) (w : ImgWorld) (img : ImageInfo) :
    exceptClause conf w img .normal = w := rfl

/-- What a successful `find_image` says: the row is in the table and its
key matches. -/
lemma find_image_some (db : List ImageInfo) (fid : Option String)
    (r : ImageInfo) (h : find_image db fid = some r) :
    r ∈ db ∧ r.f_id = fid := by
  unfold find_image at h
  refine ⟨List.mem_of_find?_eq_some h, ?_⟩
  have hp := List.find?_some h
  exact eq_of_beq hp

/-- Claim C1, amended: resubmitting a `file_id` whose persisted record is
already finished reproduces exactly that record (the working record is
replaced by the persisted one).  When `local_path` is set and the file
exists, the download is skipped; the upload is skipped since `url` is
set; the record is never re-uploaded.  But with `delete_images`
configured the completing run cleared `local_path`, so the resubmission
issues one more download before skipping the upload, ending in the same
terminal record again. -/
theorem image_resubmit_spec (conf : ImgConf) (env : ImgEnv) (w : ImgWorld)
    (img0 r : ImageInfo) (uname : String)
    (hdb : conf.storage_database = true)
    (hbl : w.blacklist.contains img0.c_id = false)
    (hnm : lookupName w.name_map img0.c_id = some uname)
    (hfind : find_image w.db img0.f_id = some r)
    (hfin : r.finished = true)
    (hurl : otruthy r.url = true) :
    (otruthy r.local_path = true → fsHas w.fs r.local_path = true →
      conf.delete_images = false →
      (ImageHandler.run_ conf env w img0).2 = r ∧
      (ImageHandler.run_ conf env w img0).1.db = w.db ∧
      (ImageHandler.run_ conf env w img0).1.downloadCalls =
        w.downloadCalls ∧
      (ImageHandler.run_ conf env w img0).1.uploadCalls = w.uploadCalls) ∧
    (∀ fp, conf.delete_images = true → r.local_path = none →
      env.get_file ((img0.f_id).getD ("")) = .ok fp →
      r.remote_path = some fp → env.download fp = none →
      (ImageHandler.run_ conf env w img0).2 = r ∧
      (ImageHandler.run_ conf env w img0).1.db = w.db ∧
      (ImageHandler.run_ conf env w img0).1.downloadCalls =
        w.downloadCalls ++ [fp] ∧
      (ImageHandler.run_ conf env w img0).1.uploadCalls = w.uploadCalls) := by
  have hrun := run_unfold_found conf env w img0 r uname hbl hnm hdb hfind
  have hfid : r.f_id = img0.f_id := (find_image_some w.db img0.f_id r hfind).2
  constructor
  · intro hlp hfs hdel
    have htry := tryBody_skip_all conf env
      { w with chatActions := w.chatActions ++ [img0.c_id] } r hlp hfs hurl
      hdel
    rw [htry, ImageInfo_set_finished r hfin] at hrun
    rw [exceptClause_normal, persistImage_same] at hrun
    rw [hrun]
    exact ⟨rfl, rfl, rfl, rfl⟩
  · intro fp hdel hlpn hgf hrem hdl
    have hgf2 : env.get_file ((r.f_id).getD ("")) = .ok fp := by
      rw [hfid]
      exact hgf
    have htry := tryBody_redownload conf env
      { w with chatActions := w.chatActions ++ [img0.c_id] } r fp hlpn hgf2
      hdl hurl hdel
    have himg :
        ({ r with
            remote_path := some fp
            local_path := none
            finished := true } : ImageInfo) = r := by
      cases r
      simp_all
    rw [htry, himg] at hrun
    rw [exceptClause_normal, persistImage_same] at hrun
    rw [hrun]
    rw [hfid]
    exact ⟨rfl, rfl, rfl, rfl⟩

/-- The demo configuration with `delete_images` off. -/
def demoConfNoDel : ImgConf := { demoConf with delete_images := false }

/-- Claim C1, witness: both branches of the amended theorem at concrete
inputs — a completed record resubmitted with the file still on disk
(no re-download), and one completed under `delete_images` (one
re-download, same terminal record, no re-upload). -/
theorem image_resubmit_spec_witness :
    ((ImageHandler.run_ demoConfNoDel demoEnv
        (ImageHandler.run_ demoConfNoDel demoEnv demoWorld demoImg).1
        demoImg).2 =
      (ImageHandler.run_ demoConfNoDel demoEnv demoWorld demoImg).2 ∧
     (ImageHandler.run_ demoConfNoDel demoEnv
        (ImageHandler.run_ demoConfNoDel demoEnv demoWorld demoImg).1
        demoImg).1.db =
      (ImageHandler.run_ demoConfNoDel demoEnv demoWorld demoImg).1.db ∧
     (ImageHandler.run_ demoConfNoDel demoEnv
        (ImageHandler.run_ demoConfNoDel demoEnv demoWorld demoImg).1
        demoImg).1.downloadCalls =
      (ImageHandler.run_ demoConfNoDel demoEnv demoWorld
        demoImg).1.downloadCalls ∧
     (ImageHandler.run_ demoConfNoDel demoEnv
        (ImageHandler.run_ demoConfNoDel demoEnv demoWorld demoImg).1
        demoImg).1.uploadCalls =
      (ImageHandler.run_ demoConfNoDel demoEnv demoWorld
        demoImg).1.uploadCalls) ∧
    ((ImageHandler.run_ demoConf demoEnv
        (ImageHandler.run_ demoConf demoEnv demoWorld demoImg).1
        demoImg).2 =
      (ImageHandler.run_ demoConf demoEnv demoWorld demoImg).2 ∧
     (ImageHandler.run_ demoConf demoEnv
        (ImageHandler.run_ demoConf demoEnv demoWorld demoImg).1
        demoImg).1.db =
      (ImageHandler.run_ demoConf demoEnv demoWorld demoImg).1.db ∧
     (ImageHandler.run_ demoConf demoEnv
        (ImageHandler.run_ demoConf demoEnv demoWorld demoImg).1
        demoImg).1.downloadCalls =
      (ImageHandler.run_ demoConf demoEnv demoWorld
        demoImg).1.downloadCalls ++ [("photos/file_1.jpg")] ∧
     (ImageHandler.run_ demoConf demoEnv
        (ImageHandler.run_ demoConf demoEnv demoWorld demoImg).1
        demoImg).1.uploadCalls =
      (ImageHandler.run_ demoConf demoEnv demoWorld
        demoImg).1.uploadCalls) :=
  ⟨(image_resubmit_spec demoConfNoDel demoEnv
      (ImageHandler.run_ demoConfNoDel demoEnv demoWorld demoImg).1
      demoImg (ImageHandler.run_ demoConfNoDel demoEnv demoWorld demoImg).2
      ("alice") rfl rfl rfl rfl rfl rfl).1 rfl rfl rfl,
   (image_resubmit_spec demoConf demoEnv
      (ImageHandler.run_ demoConf demoEnv demoWorld demoImg).1
      demoImg (ImageHandler.run_ demoConf demoEnv demoWorld demoImg).2
      ("alice") rfl rfl rfl rfl rfl rfl).2 ("photos/file_1.jpg") rfl rfl rfl
      rfl rfl⟩

/-- Try body on a fresh record when the download succeeds but the imgur
upload raises: the error is reported to the requester and re-raised, so
the body exits with the exception after the download completed. -/
lemma tryBody_upload_error (conf : ImgConf) (env : ImgEnv) (w : ImgWorld)
    (img : ImageInfo) (fp : String) (code : Int) (emsg : String)
    (hlp : img.local_path = none)
    (hgf : env.get_file ((img.f_id).getD ("")) = .ok fp)
    (hdl : env.download fp = none)
    (hurl : img.url = none)
    (hup : ∀ nm tl, env.upload (localPathFor conf env fp) nm tl =
      .error (code, emsg)) :
    tryBody conf env w img =
      ({ w with
          fs := localPathFor conf env fp :: w.fs,
          getFileCalls := w.getFileCalls ++ [(img.f_id).getD ("")],
          downloadCalls := w.downloadCalls ++ [fp],
          uploadCalls := w.uploadCalls ++ [localPathFor conf env fp],
          tgMsgs := w.tgMsgs ++ [(img.c_id,
            ("Error uploading to imgur: ") ++ toString code ++ (" ") ++
              emsg)] },
       { img with remote_path := some fp,
                  local_path := some (localPathFor conf env fp) },
       .exc (("Error uploading to imgur: ") ++ toString code ++ (" ") ++
         emsg)) := by
  unfold tryBody tryRest download_file upload_file
  simp only [hlp, otruthy_none, Bool.not_false, Bool.true_or, if_true, hgf,
    hdl, hurl, Bool.not_true, Bool.false_eq_true, if_false, Option.getD_some,
    hup, replyTo]

/-- Try body on a record whose file is on disk but whose url is unset,
with a succeeding upload: the download is skipped and only the upload is
(re)tried; the terminal record carries the returned link and is
finished. -/
lemma tryBody_retry_upload (conf : ImgConf) (env : ImgEnv) (w : ImgWorld)
    (img : ImageInfo) (link : String)
    (hlp : otruthy img.local_path = true)
    (hfs : fsHas w.fs img.local_path = true)
    (hurl : img.url = none)
    (hup : ∀ nm tl, env.upload ((img.local_path).getD ("")) nm tl =
      .ok link) :
    (tryBody conf env w img).1.downloadCalls = w.downloadCalls ∧
    (tryBody conf env w img).1.getFileCalls = w.getFileCalls ∧
    (tryBody conf env w img).1.uploadCalls =
      w.uploadCalls ++ [(img.local_path).getD ("")] ∧
    (tryBody conf env w img).2.1.finished = true ∧
    (tryBody conf env w img).2.1.url = some link := by
  rcases hv : img.local_path with _ | s
  · rw [hv] at hlp
    exact absurd hlp (by simp [otruthy_none])
  · unfold tryBody tryRest
    simp only [hlp, hfs, hurl, Bool.not_true, Bool.or_self,
      Bool.false_eq_true, if_false, otruthy_none, Bool.not_false, if_true]
    unfold upload_file
    simp only [hup, replyTo, post_to_irc]
    by_cases hdel : conf.delete_images = true
    · simp only [hdel, if_true, hv, Option.getD_some]
      by_cases hmem : s ∈ w.fs
      · simp [hmem]
      · simp [hmem]
    · simp only [Bool.not_eq_true] at hdel
      simp [hdel, hv]

/-- The except clause on an exception is the apology reply. -/
lemma exceptClause_exc (conf : ImgConf) (w : ImgWorld) (img : ImageInfo)
    (e : String) :
    exceptClause conf w img (.exc e) = replyTo w img (oopsReply conf e) := rfl

/-- The except clause never touches the network-call logs. -/
lemma exceptClause_calls (conf : ImgConf) (w : ImgWorld) (img : ImageInfo)
    (e : TryExit) :
    (exceptClause conf w img e).downloadCalls = w.downloadCalls ∧
    (exceptClause conf w img e).getFileCalls = w.getFileCalls ∧
    (exceptClause conf w img e).uploadCalls = w.uploadCalls := by
  cases e <;> exact ⟨rfl, rfl, rfl⟩

/-- Persistence never touches the network-call logs. -/
lemma persistImage_calls (w : ImgWorld) (d : Option ImageInfo)
    (img : ImageInfo) :
    (persistImage w d img).downloadCalls = w.downloadCalls ∧
    (persistImage w d img).getFileCalls = w.getFileCalls ∧
    (persistImage w d img).uploadCalls = w.uploadCalls := by
  cases d with
  | none => exact ⟨rfl, rfl, rfl⟩
  | some r =>
    refine ⟨?_, ?_, ?_⟩ <;>
      (unfold persistImage
       split
       · rfl
       · split
         · rfl
         · rfl)

/-- Inserting a row for a key that had none makes it findable. -/
lemma find_image_append (db : List ImageInfo) (fid : Option String)
    (img : ImageInfo) (h : find_image db fid = none) (hkey : img.f_id = fid) :
    find_image (db ++ [img]) fid = some img := by
  unfold find_image at h ⊢
  induction db with
  | nil =>
    simp [hkey]
  | cons e t ih =>
    rw [List.cons_append]
    rw [List.find?_cons] at h ⊢
    cases hb : (e.f_id == fid) with
    | true =>
      rw [hb] at h
      exact Option.noConfusion h
    | false =>
      rw [hb] at h
      exact ih h

/-- The computed download path is a nonempty string, hence truthy. -/
lemma otruthy_localPathFor (conf : ImgConf) (env : ImgEnv) (fp : String) :
    otruthy (some (localPathFor conf env fp)) = true := by
  rw [otruthy_some]
  have hlen : (localPathFor conf env fp).length =
      (downloadDirectory conf env).length + 1 +
        (replaceChar fp '/' '_').length := by
    unfold localPathFor
    rw [String.length_append, String.length_append]
    rfl
  have hne : localPathFor conf env fp ≠ ("") := by
    intro h0
    rw [h0] at hlen
    simp at hlen
    omega
  simp [hne]

/-- A path just placed at the head of the filesystem exists. -/
lemma fsHas_head (p : String) (fs : List String) :
    fsHas (p :: fs) (some p) = true := by
  simp [fsHas]

/-- A run that resumes from a persisted record whose file is on disk and
whose url is unset, with a succeeding upload: no download call, one
upload call, finished terminal record carrying the link. -/
lemma run_retry_upload (conf : ImgConf) (env2 : ImgEnv) (W : ImgWorld)
    (img0 r : ImageInfo) (uname link : String)
    (hdb : conf.storage_database = true)
    (hbl2 : W.blacklist.contains img0.c_id = false)
    (hnm2 : lookupName W.name_map img0.c_id = some uname)
    (hfind2 : find_image W.db img0.f_id = some r)
    (hlp : otruthy r.local_path = true)
    (hfs : fsHas W.fs r.local_path = true)
    (hurl : r.url = none)
    (hup2 : ∀ nm tl, env2.upload ((r.local_path).getD ("")) nm tl =
      .ok link) :
    (ImageHandler.run_ conf env2 W img0).1.downloadCalls =
      W.downloadCalls ∧
    (ImageHandler.run_ conf env2 W img0).1.getFileCalls = W.getFileCalls ∧
    (ImageHandler.run_ conf env2 W img0).1.uploadCalls =
      W.uploadCalls ++ [(r.local_path).getD ("")] ∧
    (ImageHandler.run_ conf env2 W img0).2.finished = true ∧
    (ImageHandler.run_ conf env2 W img0).2.url = some link := by
  have hrun2 := run_unfold_found conf env2 W img0 r uname hbl2 hnm2 hdb
    hfind2
  have htry2 := tryBody_retry_upload conf env2
    { W with chatActions := W.chatActions ++ [img0.c_id] } r link hlp hfs
    hurl hup2
  rw [hrun2]
  refine ⟨?_, ?_, ?_, ?_, ?_⟩
  · rw [(persistImage_calls _ _ _).1, (exceptClause_calls _ _ _ _).1]
    exact htry2.1
  · rw [(persistImage_calls _ _ _).2.1, (exceptClause_calls _ _ _ _).2.1]
    exact htry2.2.1
  · rw [(persistImage_calls _ _ _).2.2, (exceptClause_calls _ _ _ _).2.2]
    exact htry2.2.2.1
  · exact htry2.2.2.2.1
  · exact htry2.2.2.2.2

/-- Claim C5: when the download succeeds but the imgur upload raises, the
requester is sent the error text and then, from the outer handler the
exception propagated to, the apology carrying it; the `finally` clause
still persists the record with `url = none` and `finished = false` but
the downloaded `local_path`; resubmitting the same `file_id` afterwards
(with the upload now succeeding) skips the download entirely and retries
only the upload, finishing the record. -/
theorem upload_error_spec (conf : ImgConf) (env : ImgEnv) (w : ImgWorld)
    (img0 : ImageInfo) (uname fp : String) (code : Int) (emsg : String)
    (hdb : conf.storage_database = true)
    (hbl : w.blacklist.contains img0.c_id = false)
    (hnm : lookupName w.name_map img0.c_id = some uname)
    (hfind : find_image w.db img0.f_id = none)
    (hlp : img0.local_path = none)
    (hurl : img0.url = none)
    (hfin : img0.finished = false)
    (hgf : env.get_file ((img0.f_id).getD ("")) = .ok fp)
    (hdl : env.download fp = none)
    (hup : ∀ nm tl, env.upload (localPathFor conf env fp) nm tl =
      .error (code, emsg)) :
    (ImageHandler.run_ conf env w img0).1.tgMsgs =
      w.tgMsgs ++ [(img0.c_id,
        ("Error uploading to imgur: ") ++ toString code ++ (" ") ++ emsg),
        (img0.c_id, oopsReply conf
          (("Error uploading to imgur: ") ++ toString code ++ (" ") ++
            emsg))] ∧
    (ImageHandler.run_ conf env w img0).2.url = none ∧
    (ImageHandler.run_ conf env w img0).2.finished = false ∧
    (ImageHandler.run_ conf env w img0).2.local_path =
      some (localPathFor conf env fp) ∧
    find_image (ImageHandler.run_ conf env w img0).1.db img0.f_id =
      some (ImageHandler.run_ conf env w img0).2 ∧
    (∀ (env2 : ImgEnv) (link : String),
      (∀ nm tl, env2.upload (localPathFor conf env fp) nm tl = .ok link) →
      (ImageHandler.run_ conf env2 (ImageHandler.run_ conf env w img0).1
        img0).1.downloadCalls =
        (ImageHandler.run_ conf env w img0).1.downloadCalls ∧
      (ImageHandler.run_ conf env2 (ImageHandler.run_ conf env w img0).1
        img0).1.getFileCalls =
        (ImageHandler.run_ conf env w img0).1.getFileCalls ∧
      (ImageHandler.run_ conf env2 (ImageHandler.run_ conf env w img0).1
        img0).1.uploadCalls =
        (ImageHandler.run_ conf env w img0).1.uploadCalls ++
          [localPathFor conf env fp] ∧
      (ImageHandler.run_ conf env2 (ImageHandler.run_ conf env w img0).1
        img0).2.finished = true ∧
      (ImageHandler.run_ conf env2 (ImageHandler.run_ conf env w img0).1
        img0).2.url = some link) := by
  have hrun := run_unfold_notfound conf env w img0 uname hbl hnm hdb hfind
  have htry := tryBody_upload_error conf env
    { w with chatActions := w.chatActions ++ [img0.c_id] }
    { img0 with username := some uname } fp code emsg hlp hgf hdl hurl hup
  rw [htry, exceptClause_exc] at hrun
  have hpersist : find_image (ImageHandler.run_ conf env w img0).1.db
      img0.f_id = some (ImageHandler.run_ conf env w img0).2 := by
    rw [hrun]
    exact find_image_append w.db img0.f_id _ hfind rfl
  refine ⟨?_, ?_, ?_, ?_, hpersist, ?_⟩
  · rw [hrun]
    simp [replyTo, persistImage, oopsReply]
  · rw [hrun]
    exact hurl
  · rw [hrun]
    exact hfin
  · rw [hrun]
  · intro env2 link hup2
    have hconc := run_retry_upload conf env2
      (ImageHandler.run_ conf env w img0).1 img0
      (ImageHandler.run_ conf env w img0).2 uname link hdb
      (by rw [hrun]; exact hbl)
      (by rw [hrun]; exact hnm)
      hpersist
      (by rw [hrun]; exact otruthy_localPathFor conf env fp)
      (by rw [hrun]; exact fsHas_head _ _)
      (by rw [hrun]; exact hurl)
      (by rw [hrun]; exact hup2)
    refine ⟨hconc.1, hconc.2.1, ?_, hconc.2.2.2.1, hconc.2.2.2.2⟩
    have h3 := hconc.2.2.1
    rw [hrun] at h3 ⊢
    exact h3

/-- Claim C5, witness: the failing-upload run and its retry at the
concrete scenario (download succeeds, imgur replies 400, then the
resubmission with a working imgur uploads without re-downloading). -/
theorem upload_error_spec_witness :
    (ImageHandler.run_ demoConf demoEnvUpFail demoWorld demoImg).1.tgMsgs =
      demoWorld.tgMsgs ++ [(demoImg.c_id,
        ("Error uploading to imgur: ") ++ toString (400 : Int) ++ (" ") ++
          ("over capacity")),
        (demoImg.c_id, oopsReply demoConf
          (("Error uploading to imgur: ") ++ toString (400 : Int) ++
            (" ") ++ ("over capacity")))] ∧
    (ImageHandler.run_ demoConf demoEnvUpFail demoWorld demoImg).2.url =
      none ∧
    (ImageHandler.run_ demoConf demoEnvUpFail demoWorld
      demoImg).2.finished = false ∧
    (ImageHandler.run_ demoConf demoEnvUpFail demoWorld
      demoImg).2.local_path =
      some (localPathFor demoConf demoEnvUpFail ("photos/file_1.jpg")) ∧
    find_image (ImageHandler.run_ demoConf demoEnvUpFail demoWorld
      demoImg).1.db demoImg.f_id =
      some (ImageHandler.run_ demoConf demoEnvUpFail demoWorld demoImg).2 ∧
    ((ImageHandler.run_ demoConf demoEnv
        (ImageHandler.run_ demoConf demoEnvUpFail demoWorld demoImg).1
        demoImg).1.downloadCalls =
      (ImageHandler.run_ demoConf demoEnvUpFail demoWorld
        demoImg).1.downloadCalls ∧
     (ImageHandler.run_ demoConf demoEnv
        (ImageHandler.run_ demoConf demoEnvUpFail demoWorld demoImg).1
        demoImg).1.getFileCalls =
      (ImageHandler.run_ demoConf demoEnvUpFail demoWorld
        demoImg).1.getFileCalls ∧
     (ImageHandler.run_ demoConf demoEnv
        (ImageHandler.run_ demoConf demoEnvUpFail demoWorld demoImg).1
        demoImg).1.uploadCalls =
      (ImageHandler.run_ demoConf demoEnvUpFail demoWorld
        demoImg).1.uploadCalls ++
        [localPathFor demoConf demoEnvUpFail ("photos/file_1.jpg")] ∧
     (ImageHandler.run_ demoConf demoEnv
        (ImageHandler.run_ demoConf demoEnvUpFail demoWorld demoImg).1
        demoImg).2.finished = true ∧
     (ImageHandler.run_ demoConf demoEnv
        (ImageHandler.run_ demoConf demoEnvUpFail demoWorld demoImg).1
        demoImg).2.url = some ("http://i.example/x.jpg")) := by
  have h := upload_error_spec demoConf demoEnvUpFail demoWorld demoImg
    ("alice") ("photos/file_1.jpg") 400 ("over capacity") rfl rfl rfl rfl
    rfl rfl rfl rfl rfl (fun _ _ => rfl)
  exact ⟨h.1, h.2.1, h.2.2.1, h.2.2.2.1, h.2.2.2.2.1,
    h.2.2.2.2.2 demoEnv ("http://i.example/x.jpg") (fun _ _ => rfl)⟩

/-- A truthy optional string is not `none`. -/
lemma otruthy_ne_none (o : Option String) (h : otruthy o = true) :
    o ≠ none := by
  cases o with
  | none =>
    rw [otruthy_none] at h
    exact Bool.noConfusion h
  | some s => exact fun hc => Option.noConfusion hc

/-- The download stage never changes `finished` or `url` of the working
record. -/
lemma download_file_preserves (conf : ImgConf) (env : ImgEnv)
    (w : ImgWorld) (img : ImageInfo) :
    (download_file conf env w img).2.1.finished = img.finished ∧
    (download_file conf env w img).2.1.url = img.url := by
  refine ⟨?_, ?_⟩ <;>
    (unfold download_file
     split
     · rfl
     · split
       · rfl
       · rfl)

/-- A successful download sets `remote_path` and `local_path` from the
fetched file path and puts the file at the head of the filesystem. -/
lemma download_file_ok (conf : ImgConf) (env : ImgEnv) (w : ImgWorld)
    (img : ImageInfo) (w1 : ImgWorld) (img1 : ImageInfo)
    (h : download_file conf env w img = (w1, img1, true)) :
    ∃ fp, img1 =
        ({ img with
            remote_path := some fp
            local_path := some (localPathFor conf env fp) } : ImageInfo) ∧
      w1.fs = localPathFor conf env fp :: w.fs := by
  unfold download_file at h
  split at h
  · have hb := congrArg (fun t => t.2.2) h
    exact Bool.noConfusion hb
  · rename_i fp heq
    split at h
    · have hb := congrArg (fun t => t.2.2) h
      exact Bool.noConfusion hb
    · refine ⟨fp, ?_, ?_⟩
      · have hi := congrArg (fun t => t.2.1) h
        exact hi.symm
      · have hw := congrArg (fun t => t.1.fs) h
        exact hw.symm

/-- A successful upload only adds the returned link as `url`. -/
lemma upload_file_ok (conf : ImgConf) (env : ImgEnv) (w : ImgWorld)
    (img : ImageInfo) (w2 : ImgWorld) (img2 : ImageInfo)
    (h : upload_file conf env w img = (w2, .ok img2)) :
    ∃ link, img2 = { img with url := some link } := by
  unfold upload_file at h
  split at h
  · have hb := congrArg (fun t => t.2) h
    simp at hb
  · rename_i link heq
    have hi := congrArg (fun t => t.2) h
    simp only [Except.ok.injEq] at hi
    exact ⟨link, hi.symm⟩

/-- The upload stage never touches the filesystem. -/
lemma upload_file_fs (conf : ImgConf) (env : ImgEnv) (w : ImgWorld)
    (img : ImageInfo) :
    ((upload_file conf env w img).1).fs = w.fs := by
  unfold upload_file
  split
  · rfl
  · rfl

/-- Result record of the rest stage when the upload is skipped and the
cleanup deletes the file. -/
lemma tryRest_21_skip_del (conf : ImgConf) (env : ImgEnv) (w : ImgWorld)
    (img : ImageInfo) (s : String)
    (hu : otruthy img.url = true)
    (hs : img.local_path = some s)
    (hmem : w.fs.contains s = true)
    (hdel : conf.delete_images = true) :
    (tryRest conf env w img).2.1 =
      { img with finished := true, local_path := none } := by
  unfold tryRest
  simp only [hu, Bool.not_true, Bool.false_eq_true, if_false, hdel, if_true,
    hs, replyTo, post_to_irc, hmem]

/-- Result record of the rest stage when the upload is skipped and no
cleanup is configured. -/
lemma tryRest_21_skip_nodel (conf : ImgConf) (env : ImgEnv) (w : ImgWorld)
    (img : ImageInfo)
    (hu : otruthy img.url = true)
    (hdel : conf.delete_images = false) :
    (tryRest conf env w img).2.1 = { img with finished := true } := by
  unfold tryRest
  simp only [hu, Bool.not_true, Bool.false_eq_true, if_false, hdel, if_false]

/-- Result record of the rest stage when the upload raises: the working
record is unchanged and the exception propagates. -/
lemma tryRest_21_upload_error (conf : ImgConf) (env : ImgEnv)
    (w : ImgWorld) (img : ImageInfo) (w2 : ImgWorld) (e : String)
    (hu2 : otruthy img.url = false)
    (hupf : upload_file conf env w img = (w2, .error e)) :
    (tryRest conf env w img).2.1 = img ∧
    (tryRest conf env w img).2.2 = .exc e := by
  constructor
  · unfold tryRest
    simp only [hu2, Bool.not_false, if_true, hupf]
  · unfold tryRest
    simp only [hu2, Bool.not_false, if_true, hupf]

/-- Result record of the rest stage when the upload succeeds and the
cleanup deletes the file. -/
lemma tryRest_21_upload_del (conf : ImgConf) (env : ImgEnv) (w : ImgWorld)
    (img : ImageInfo) (w2 : ImgWorld) (img2 : ImageInfo) (s : String)
    (hu2 : otruthy img.url = false)
    (hupf : upload_file conf env w img = (w2, .ok img2))
    (hs2 : img2.local_path = some s)
    (hmem : w.fs.contains s = true)
    (hdel : conf.delete_images = true) :
    (tryRest conf env w img).2.1 =
      { img2 with finished := true, local_path := none } := by
  have hw2fs : w2.fs = w.fs := by
    rw [← upload_file_fs conf env w img, hupf]
  unfold tryRest
  simp only [hu2, Bool.not_false, if_true, hupf, hdel, hs2, replyTo,
    post_to_irc, hw2fs, hmem]

/-- Result record of the rest stage when the upload succeeds and no
cleanup is configured. -/
lemma tryRest_21_upload_nodel (conf : ImgConf) (env : ImgEnv)
    (w : ImgWorld) (img : ImageInfo) (w2 : ImgWorld) (img2 : ImageInfo)
    (hu2 : otruthy img.url = false)
    (hupf : upload_file conf env w img = (w2, .ok img2))
    (hdel : conf.delete_images = false) :
    (tryRest conf env w img).2.1 = { img2 with finished := true } := by
  unfold tryRest
  simp only [hu2, Bool.not_false, if_true, hupf, hdel, Bool.false_eq_true,
    if_false]

/-- After the download stage has ensured the local file exists, the rest
of the try body ends in a record satisfying the finished-record
invariant whenever it marks the record finished: the url is set, and
`local_path` is cleared exactly when `delete_images` is configured. -/
lemma tryRest_finished_prop (conf : ImgConf) (env : ImgEnv) (w : ImgWorld)
    (img : ImageInfo) (s : String)
    (hfin0 : img.finished = false)
    (hs : img.local_path = some s)
    (hmem : w.fs.contains s = true) :
    (tryRest conf env w img).2.1.finished = true →
      (tryRest conf env w img).2.1.url ≠ none ∧
      (conf.delete_images = true →
        (tryRest conf env w img).2.1.local_path = none) ∧
      (conf.delete_images = false →
        (tryRest conf env w img).2.1.local_path ≠ none) := by
  intro hfin
  by_cases hu : otruthy img.url = true
  · have hne : img.url ≠ none := otruthy_ne_none _ hu
    by_cases hdel : conf.delete_images = true
    · rw [tryRest_21_skip_del conf env w img s hu hs hmem hdel]
      refine ⟨hne, fun _ => rfl, fun hdf => ?_⟩
      rw [hdel] at hdf
      exact Bool.noConfusion hdf
    · have hdel2 : conf.delete_images = false := by
        rwa [Bool.not_eq_true] at hdel
      rw [tryRest_21_skip_nodel conf env w img hu hdel2]
      refine ⟨hne, fun hdt => ?_, fun _ => ?_⟩
      · rw [hdel2] at hdt
        exact Bool.noConfusion hdt
      · show img.local_path ≠ none
        rw [hs]
        exact fun hc => Option.noConfusion hc
  · have hu2 : otruthy img.url = false := by rwa [Bool.not_eq_true] at hu
    rcases hupf : upload_file conf env w img with ⟨w2, res⟩
    cases res with
    | error e =>
      have h21 := (tryRest_21_upload_error conf env w img w2 e hu2 hupf).1
      rw [h21] at hfin
      rw [hfin0] at hfin
      exact Bool.noConfusion hfin
    | ok img2 =>
      obtain ⟨link, rfl⟩ := upload_file_ok conf env w img w2 img2 hupf
      have hs2 : ({ img with url := some link } : ImageInfo).local_path =
          some s := hs
      by_cases hdel : conf.delete_images = true
      · rw [tryRest_21_upload_del conf env w img w2 _ s hu2 hupf hs2 hmem
          hdel]
        refine ⟨fun hc => Option.noConfusion hc, fun _ => rfl,
          fun hdf => ?_⟩
        rw [hdel] at hdf
        exact Bool.noConfusion hdf
      · have hdel2 : conf.delete_images = false := by
          rwa [Bool.not_eq_true] at hdel
        rw [tryRest_21_upload_nodel conf env w img w2 _ hu2 hupf hdel2]
        refine ⟨fun hc => Option.noConfusion hc, fun hdt => ?_,
          fun _ => ?_⟩
        · rw [hdel2] at hdt
          exact Bool.noConfusion hdt
        · show img.local_path ≠ none
          rw [hs]
          exact fun hc => Option.noConfusion hc

/-- The whole try body satisfies the finished-record invariant whenever
it marks an unfinished record finished. -/
lemma tryBody_finished_prop (conf : ImgConf) (env : ImgEnv) (w : ImgWorld)
    (img : ImageInfo) (hfin0 : img.finished = false) :
    (tryBody conf env w img).2.1.finished = true →
      (tryBody conf env w img).2.1.url ≠ none ∧
      (conf.delete_images = true →
        (tryBody conf env w img).2.1.local_path = none) ∧
      (conf.delete_images = false →
        (tryBody conf env w img).2.1.local_path ≠ none) := by
  intro hfin
  unfold tryBody at hfin ⊢
  by_cases hc : (!(otruthy img.local_path) || !(fsHas w.fs img.local_path))
      = true
  · simp only [hc, if_true] at hfin ⊢
    revert hfin
    rcases hdf : download_file conf env w img with ⟨w1, img1, ok⟩
    intro hfin
    cases ok with
    | false =>
      simp only [Bool.not_false, if_true] at hfin
      have hpres := (download_file_preserves conf env w img).1
      rw [hdf] at hpres
      have hif : img.finished = true := by
        rw [← hpres]
        exact hfin
      rw [hfin0] at hif
      exact Bool.noConfusion hif
    | true =>
      simp only [Bool.not_true, Bool.false_eq_true, if_false] at hfin ⊢
      obtain ⟨fp, himg1, hfs1⟩ := download_file_ok conf env w img w1 img1 hdf
      subst himg1
      have hmem1 : w1.fs.contains (localPathFor conf env fp) = true := by
        rw [hfs1]
        simp
      exact tryRest_finished_prop conf env w1 _ (localPathFor conf env fp)
        hfin0 rfl hmem1 hfin
  · have hc2 : (!(otruthy img.local_path) || !(fsHas w.fs img.local_path))
        = false := by rwa [Bool.not_eq_true] at hc
    simp only [hc2, Bool.false_eq_true, if_false, Bool.not_true] at hfin ⊢
    have hor := (Bool.or_eq_false_iff).mp hc2
    have hlp : otruthy img.local_path = true := by
      have h1 := hor.1
      rwa [Bool.not_eq_false'] at h1
    have hfs : fsHas w.fs img.local_path = true := by
      have h2 := hor.2
      rwa [Bool.not_eq_false'] at h2
    rcases hv : img.local_path with _ | s
    · rw [hv, otruthy_none] at hlp
      exact Bool.noConfusion hlp
    · have hmem : w.fs.contains s = true := by
        rw [hv] at hfs
        exact hfs
      exact tryRest_finished_prop conf env w img s hfin0 hv hmem hfin

/-- An authorized run with persistence disabled works on the fresh
record and skips the database steps. -/
lemma run_unfold_nodb (conf : ImgConf) (env : ImgEnv) (w : ImgWorld)
    (img0 : ImageInfo) (uname : String)
    (hbl : w.blacklist.contains img0.c_id = false)
    (hnm : lookupName w.name_map img0.c_id = some uname)
    (hdb : conf.storage_database = false) :
    ImageHandler.run_ conf env w img0 =
      (exceptClause conf
        (tryBody conf env
          { w with chatActions := w.chatActions ++ [img0.c_id] }
          { img0 with username := some uname }).1
        (tryBody conf env
          { w with chatActions := w.chatActions ++ [img0.c_id] }
          { img0 with username := some uname }).2.1
        (tryBody conf env
          { w with chatActions := w.chatActions ++ [img0.c_id] }
          { img0 with username := some uname }).2.2,
       (tryBody conf env
         { w with chatActions := w.chatActions ++ [img0.c_id] }
         { img0 with username := some uname }).2.1) := by
  unfold ImageHandler.run_
  simp only [hbl, Bool.false_eq_true, if_false, hnm, hdb, Option.getD_none]

/-- Claim C2, amended: for a pipeline run whose record is not already
finished (neither the submitted record nor any persisted record for its
`file_id` has `finished = true`), the terminal record satisfies:
`finished = true` implies the url is non-null, `local_path` is null when
`delete_images` is configured, and `local_path` is still set when it is
not.  (The restriction to not-already-finished records is forced by the
counterexample: a failed re-download of an already finished record keeps
`finished = true` while re-setting a stale `local_path`.) -/
theorem image_finished_invariant (conf : ImgConf) (env : ImgEnv)
    (w : ImgWorld) (img0 : ImageInfo)
    (h0 : img0.finished = false)
    (hdb2 : ∀ r, find_image w.db img0.f_id = some r → r.finished = false) :
    (ImageHandler.run_ conf env w img0).2.finished = true →
      (ImageHandler.run_ conf env w img0).2.url ≠ none ∧
      (conf.delete_images = true →
        (ImageHandler.run_ conf env w img0).2.local_path = none) ∧
      (conf.delete_images = false →
        (ImageHandler.run_ conf env w img0).2.local_path ≠ none) := by
  intro hfin
  by_cases hbl : w.blacklist.contains img0.c_id = true
  · have hrun : ImageHandler.run_ conf env w img0 = (w, img0) := by
      unfold ImageHandler.run_
      rw [if_pos hbl]
    rw [hrun] at hfin
    rw [h0] at hfin
    exact Bool.noConfusion hfin
  · have hbl2 : w.blacklist.contains img0.c_id = false := by
      rwa [Bool.not_eq_true] at hbl
    cases hnm : lookupName w.name_map img0.c_id with
    | none =>
      have hrun : ImageHandler.run_ conf env w img0 =
          (replyTo w img0
            ("You need to authenticate via /auth before sending pictures"),
           img0) := by
        unfold ImageHandler.run_
        simp only [hbl2, Bool.false_eq_true, if_false, hnm]
      rw [hrun] at hfin
      rw [h0] at hfin
      exact Bool.noConfusion hfin
    | some uname =>
      by_cases hdbc : conf.storage_database = true
      · cases hfindv : find_image w.db img0.f_id with
        | none =>
          have hrun := run_unfold_notfound conf env w img0 uname hbl2 hnm
            hdbc hfindv
          rw [hrun] at hfin ⊢
          exact tryBody_finished_prop conf env
            { w with chatActions := w.chatActions ++ [img0.c_id] }
            { img0 with username := some uname } h0 hfin
        | some r =>
          have hrfin : r.finished = false := hdb2 r hfindv
          have hrun := run_unfold_found conf env w img0 r uname hbl2 hnm
            hdbc hfindv
          rw [hrun] at hfin ⊢
          exact tryBody_finished_prop conf env
            { w with chatActions := w.chatActions ++ [img0.c_id] } r hrfin
            hfin
      · have hdbf : conf.storage_database = false := by
          rwa [Bool.not_eq_true] at hdbc
        have hrun := run_unfold_nodb conf env w img0 uname hbl2 hnm hdbf
        rw [hrun] at hfin ⊢
        exact tryBody_finished_prop conf env
          { w with chatActions := w.chatActions ++ [img0.c_id] }
          { img0 with username := some uname } h0 hfin

/-- Claim C2, witness for the amended theorem: the concrete completing
run from the empty table under `delete_images`, and the same without
`delete_images`. -/
theorem image_finished_invariant_witness :
    ((ImageHandler.run_ demoConf demoEnv demoWorld demoImg).2.url ≠ none ∧
     (demoConf.delete_images = true →
       (ImageHandler.run_ demoConf demoEnv demoWorld
         demoImg).2.local_path = none) ∧
     (demoConf.delete_images = false →
       (ImageHandler.run_ demoConf demoEnv demoWorld
         demoImg).2.local_path ≠ none)) ∧
    ((ImageHandler.run_ demoConfNoDel demoEnv demoWorld demoImg).2.url ≠
       none ∧
     (demoConfNoDel.delete_images = true →
       (ImageHandler.run_ demoConfNoDel demoEnv demoWorld
         demoImg).2.local_path = none) ∧
     (demoConfNoDel.delete_images = false →
       (ImageHandler.run_ demoConfNoDel demoEnv demoWorld
         demoImg).2.local_path ≠ none)) :=
  ⟨image_finished_invariant demoConf demoEnv demoWorld demoImg rfl
     (fun r hr => by exact Option.noConfusion hr) rfl,
   image_finished_invariant demoConfNoDel demoEnv demoWorld demoImg rfl
     (fun r hr => by exact Option.noConfusion hr) rfl⟩

end TgIrcProxy
